import Mathlib

/-!
# CDC ingestion pipeline (blog-cdc-search)

A shallow embedding of the change-data-capture pipeline of
`Postgres/blog-cdc-search` (`domain/cdc_event.go`, `domain/search_index.go`,
`application/service/cdc_service.go`) and of the consume loop of
`MySQL/blog-cdc-search/infrastructure/messagequeue/rabbitmq.go`.

Conventions of the embedding:
* a Go `error` is its message, `nil` is `none`;
* a Go `map[string]interface{}` is an association list wrapped in `Option`
  (`none` is the nil map), read by first match;
* Go `int` and `int64` are `Int` (64 bit on the supported platforms, the
  pipeline performs no arithmetic that can overflow);
* a finite `float64` is its exact rational value;
* calls to the search index are recorded in a call log, and the index answers
  each call as a function of the log of the calls made before it;
* the Go standard library calls (`json.Unmarshal`, `time.Parse`, `time.Now`)
  are fields of `Runtime`, so every theorem holds for any behaviour of them;
* `StartCDC` sees the two repositories through `Repositories`, and records the
  calls it makes on them, deferred `Close` calls included;
* where a property speaks of the content of the search engine, the engine is a
  map from collection and document id to document (`IndexState`).
-/

namespace CDC

/-- Raw message body, Go `[]byte`. -/
abbrev Bytes := List UInt8

/-- Go `error` value, identified with its message. -/
abbrev GoError := String

/-- Dynamic value held by an `interface{}`: the types `encoding/json` produces
(nil, bool, float64, string, slice, map) and the Go integers the type switches
of the pipeline look for. -/
inductive Value where
  | nil
  | bool (b : Bool)
  | float64 (f : ℚ)
  | int (i : Int)
  | int64 (i : Int)
  | string (s : String)
  | slice (xs : List Value)
  | map (m : List (String × Value))

/-- Go `map[string]interface{}`; `none` is the nil map. -/
abbrev GoMap := Option (List (String × Value))

/-- Read `v, ok := m[k]`; a nil map has no keys. -/
def GoMap.get (m : GoMap) (k : String) : Option Value :=
  match m with
  | none => none
  | some fs => fs.lookup k

/-- Replace the first binding of `k`, or add one when there is none. -/
def setField (k : String) (v : Value) : List (String × Value) → List (String × Value)
  | [] => [(k, v)]
  | (k', v') :: rest => if k' = k then (k, v) :: rest else (k', v') :: setField k v rest

/-- Assignment `m[k] = v`. The pipeline only assigns to a key it has just read
from the same map, so the nil case (a Go panic) is never reached. -/
def GoMap.set (m : GoMap) (k : String) (v : Value) : GoMap :=
  match m with
  | none => none
  | some fs => some (setField k v fs)

def minInt64 : Int := -9223372036854775808

def maxInt64 : Int := 9223372036854775807

/-- Go conversion `int(v)` / `int64(v)` of a float64: the fraction is discarded.
A value outside the int64 range converts to the amd64 result `minInt64`
(the Go specification leaves it to the implementation). -/
def float64ToInt (f : ℚ) : Int :=
  let t := Int.tdiv f.num (f.den : Int)
  if minInt64 ≤ t ∧ t ≤ maxInt64 then t else minInt64

/-- Seconds of `time.Unix(sec, nsec).Unix()`: the nanoseconds are normalised
into `[0, 1e9)` and carried into the seconds. -/
def timeUnix (sec nsec : Int) : Int :=
  if nsec < 0 ∨ nsec ≥ 1000000000 then
    let n := Int.tdiv nsec 1000000000
    let sec1 := sec + n
    let nsec1 := nsec - n * 1000000000
    if nsec1 < 0 then sec1 - 1 else sec1
  else sec

/-! ## domain/cdc_event.go -/

structure CDCEvent where
  Database : String
  Table : String
  /-- Go field `Type`. -/
  Typ : String
  Data : GoMap
  Old : GoMap
  TS : Int
  Xid : Int
  Xoffset : Int

def EventTypeInsert : String := "insert"
def EventTypeUpdate : String := "update"
def EventTypeDelete : String := "delete"
def EventTypeBootstrapStart : String := "bootstrap-start"
def EventTypeBootstrapInsert : String := "bootstrap-insert"
def EventTypeBootstrapComplete : String := "bootstrap-complete"

def CDCEvent.IsValid (e : CDCEvent) : Bool :=
  e.Database != "" && e.Table != "" && e.Typ != "" && e.Data.isSome

def CDCEvent.GetID (e : CDCEvent) : Option Int :=
  match e.Data.get "id" with
  | some (Value.float64 v) => some (float64ToInt v)
  | some (Value.int v) => some v
  | some (Value.int64 v) => some v
  | _ => none

/-- Source block of the structured envelope, `payload.source`. -/
structure DebeziumSource where
  DB : String
  Table : String

/-- Payload of the structured envelope. -/
structure DebeziumPayload where
  Before : GoMap
  After : GoMap
  Source : DebeziumSource
  Op : String
  TS : Int

/-- Anonymous struct `debeziumEvent` of `FromDebeziumJSON`. -/
structure DebeziumEvent where
  Payload : DebeziumPayload

/-- Standard library and clock as the pipeline sees them. -/
structure Runtime where
  /-- Result of `json.Unmarshal(data, &debeziumEvent)`. -/
  unmarshalDebezium : Bytes → Except GoError DebeziumEvent
  /-- Result of `json.Unmarshal(data, &event)` for a `CDCEvent`. -/
  unmarshalCDCEvent : Bytes → Except GoError CDCEvent
  /-- Unix seconds of `time.Parse(time.RFC3339, v)`, `none` on a parse error. -/
  parseRFC3339 : String → Option Int
  /-- Value of the n-th `time.Now().Unix()` read while one document is built. -/
  now : Nat → Int

def FromJSON (rt : Runtime) (data : Bytes) : Except GoError CDCEvent :=
  match rt.unmarshalCDCEvent data with
  | .error err => .error err
  | .ok event => .ok event

def FromDebeziumJSON (rt : Runtime) (data : Bytes) : Except GoError CDCEvent :=
  match rt.unmarshalDebezium data with
  | .error _ => FromJSON rt data
  | .ok debeziumEvent =>
    if debeziumEvent.Payload.Source.DB = "" ∧ debeziumEvent.Payload.Source.Table = "" then
      FromJSON rt data
    else
      let event : CDCEvent :=
        { Database := debeziumEvent.Payload.Source.DB
          Table := debeziumEvent.Payload.Source.Table
          Typ := ""
          Data := none
          Old := none
          TS := debeziumEvent.Payload.TS
          Xid := 0
          Xoffset := 0 }
      if debeziumEvent.Payload.Op = "r" then
        .ok { event with Typ := EventTypeBootstrapInsert, Data := debeziumEvent.Payload.After }
      else if debeziumEvent.Payload.Op = "c" then
        .ok { event with Typ := EventTypeInsert, Data := debeziumEvent.Payload.After }
      else if debeziumEvent.Payload.Op = "u" then
        .ok { event with Typ := EventTypeUpdate, Data := debeziumEvent.Payload.After,
                         Old := debeziumEvent.Payload.Before }
      else if debeziumEvent.Payload.Op = "d" then
        .ok { event with Typ := EventTypeDelete, Data := debeziumEvent.Payload.Before }
      else
        .ok { event with Typ := debeziumEvent.Payload.Op, Data := debeziumEvent.Payload.After }

/-! ## domain/search_index.go -/

structure SearchDocument where
  ID : String
  Title : String
  Image : String
  Excerpt : String
  Body : String
  CreatedAt : Int
  UpdatedAt : Int
  deriving DecidableEq, Repr

/-- Message of `ErrPostNotFound` (domain/post.go). -/
def ErrPostNotFound : GoError := "post not found"

/-- Type assertion `data[k].(string)` with the failure ignored. -/
def stringField (data : GoMap) (k : String) : String :=
  match data.get k with
  | some (Value.string s) => s
  | _ => ""

/-- Type switch that reads `created_at` / `updated_at` in
`NewSearchDocumentFromMap`; the variable starts at 0. -/
def timestampField (rt : Runtime) (data : GoMap) (k : String) : Int :=
  match data.get k with
  | some (Value.float64 v) => float64ToInt v
  | some (Value.int64 v) => v
  | some (Value.int v) => v
  | some (Value.string v) =>
    match rt.parseRFC3339 v with
    | some t => t
    | none => 0
  | _ => 0

def NewSearchDocumentFromMap (rt : Runtime) (data : GoMap) : Except GoError SearchDocument :=
  match data.get "id" with
  | none => .error ErrPostNotFound
  | some id =>
    let postID : Option Int :=
      match id with
      | Value.float64 v => some (float64ToInt v)
      | Value.int v => some v
      | Value.int64 v => some v
      | _ => none
    match postID with
    | none => .error ErrPostNotFound
    | some postID =>
      let title := stringField data "title"
      let image := stringField data "image"
      let excerpt := stringField data "excerpt"
      let body := stringField data "body"
      let createdAt := timestampField rt data "created_at"
      let updatedAt := timestampField rt data "updated_at"
      let reads : Nat := if createdAt = 0 then 1 else 0
      let createdAt := if createdAt = 0 then rt.now 0 else createdAt
      let updatedAt := if updatedAt = 0 then rt.now reads else updatedAt
      .ok { ID := toString postID
            Title := title
            Image := image
            Excerpt := excerpt
            Body := body
            CreatedAt := createdAt
            UpdatedAt := updatedAt }

/-! ## application/service/cdc_service.go -/

/-- One call made on the `SearchIndexRepository` by the handler. -/
inductive SinkCall where
  | upsert (collectionName : String) (document : SearchDocument)
  | delete (collectionName : String) (documentID : String)
  deriving DecidableEq, Repr

/-- Search index seen through its interface: the error each call returns, as a
function of the calls made before it. -/
structure SearchIndexRepository where
  UpsertDocument : List SinkCall → String → SearchDocument → Option GoError
  DeleteDocument : List SinkCall → String → String → Option GoError

/-- Error the index returns to `call` after the calls of `log`. -/
def SearchIndexRepository.answer (idx : SearchIndexRepository) (log : List SinkCall) :
    SinkCall → Option GoError
  | .upsert c d => idx.UpsertDocument log c d
  | .delete c i => idx.DeleteDocument log c i

/-- One of the two identical blocks of `convertTimestamps`, for key `k`. -/
def convertTimestampKey (data : GoMap) (k : String) : GoMap :=
  match data.get k with
  | some (Value.float64 v) =>
    if v > 1000000000000 then data.set k (Value.int64 (timeUnix 0 (float64ToInt v))) else data
  | some (Value.int64 v) =>
    if v > 1000000000000 then data.set k (Value.int64 (timeUnix 0 v)) else data
  | some (Value.int v) =>
    if v > 1000000000000 then data.set k (Value.int64 (timeUnix 0 v)) else data
  | _ => data

def convertTimestamps (data : GoMap) : GoMap :=
  convertTimestampKey (convertTimestampKey data "created_at") "updated_at"

def handleUpsert (rt : Runtime) (idx : SearchIndexRepository) (log : List SinkCall)
    (event : CDCEvent) : Option GoError × List SinkCall :=
  let data := convertTimestamps event.Data
  match NewSearchDocumentFromMap rt data with
  | .error err => (some err, log)
  | .ok doc =>
    let collectionName := "posts"
    match idx.UpsertDocument log collectionName doc with
    | some err => (some err, log ++ [SinkCall.upsert collectionName doc])
    | none => (none, log ++ [SinkCall.upsert collectionName doc])

def handleDelete (idx : SearchIndexRepository) (log : List SinkCall)
    (event : CDCEvent) : Option GoError × List SinkCall :=
  match event.GetID with
  | none => (some "failed to extract ID from delete event", log)
  | some id =>
    let collectionName := "posts"
    let documentID := toString id
    match idx.DeleteDocument log collectionName documentID with
    | some err => (some err, log ++ [SinkCall.delete collectionName documentID])
    | none => (none, log ++ [SinkCall.delete collectionName documentID])

/-- Handler of one broker message: the returned error and the call log after it. -/
def handleMessage (rt : Runtime) (idx : SearchIndexRepository) (log : List SinkCall)
    (message : Bytes) : Option GoError × List SinkCall :=
  match FromDebeziumJSON rt message with
  | .error err => (some err, log)
  | .ok event =>
    if !event.IsValid then (some "invalid CDC event", log)
    else if event.Table != "posts" then (none, log)
    else if event.Typ = EventTypeInsert ∨ event.Typ = EventTypeUpdate
        ∨ event.Typ = EventTypeBootstrapInsert then
      handleUpsert rt idx log event
    else if event.Typ = EventTypeDelete then handleDelete idx log event
    else if event.Typ = EventTypeBootstrapStart then (none, log)
    else if event.Typ = EventTypeBootstrapComplete then (none, log)
    else (some ("unknown event type: " ++ event.Typ), log)

/-! ## infrastructure/messagequeue/rabbitmq.go -/

/-- Message delivered by the broker (`amqp.Delivery`). -/
structure Delivery where
  DeliveryTag : Nat
  Body : Bytes

/-- What the consume loop does, in order: a handler invocation on a body, or an
acknowledgment sent to the broker for a delivery tag. -/
inductive ConsumeStep where
  | handler (body : Bytes)
  | ack (tag : Nat) (multiple : Bool)
  | nack (tag : Nat) (multiple : Bool) (requeue : Bool)
  deriving DecidableEq, Repr

/-- Broker channel as `ConsumeMessages` uses it: the result of each set-up call,
and the deliveries the channel yields before it is closed. -/
structure Channel where
  QueueDeclare : String → Except GoError String
  ExchangeDeclare : String → String → Option GoError
  QueueBind : String → String → String → Option GoError
  Qos : Nat → Nat → Bool → Option GoError
  Consume : String → Except GoError (List Delivery)

/-- Loop `for msg := range msgs` of `ConsumeMessages`; the handler is a Go
closure, so it carries a state of its own. The errors of `Ack` and `Nack` are
only logged. -/
def consumeLoop {σ : Type} (handler : σ → Bytes → Option GoError × σ) :
    σ → List Delivery → List ConsumeStep × σ
  | s, [] => ([], s)
  | s, msg :: rest =>
    match handler s msg.Body with
    | (some _, s1) =>
      let (steps, s2) := consumeLoop handler s1 rest
      (ConsumeStep.handler msg.Body :: ConsumeStep.nack msg.DeliveryTag false true :: steps, s2)
    | (none, s1) =>
      let (steps, s2) := consumeLoop handler s1 rest
      (ConsumeStep.handler msg.Body :: ConsumeStep.ack msg.DeliveryTag false :: steps, s2)

def ConsumeMessages {σ : Type} (ch : Channel) (queueName : String)
    (handler : σ → Bytes → Option GoError × σ) (s : σ) :
    Option GoError × List ConsumeStep × σ :=
  match ch.QueueDeclare queueName with
  | .error err => (some ("failed to declare queue: " ++ err), [], s)
  | .ok queue =>
    match ch.ExchangeDeclare "maxwell" "fanout" with
    | some err => (some ("failed to declare exchange: " ++ err), [], s)
    | none =>
      match ch.QueueBind queueName "blog.posts" "maxwell" with
      | some err => (some ("failed to bind queue: " ++ err), [], s)
      | none =>
        match ch.Qos 1 0 false with
        | some err => (some ("failed to set QoS: " ++ err), [], s)
        | none =>
          match ch.Consume queue with
          | .error err => (some ("failed to start consuming: " ++ err), [], s)
          | .ok msgs =>
            let (steps, s1) := consumeLoop handler s msgs
            (none, steps, s1)

/-! ## Vocabulary of the properties -/

/-- String form of a row id: the decimal rendering of its integer value; `none`
for a value that is not a float64, int or int64. -/
def idDecimal : Value → Option String
  | Value.float64 v => some (toString (float64ToInt v))
  | Value.int v => some (toString v)
  | Value.int64 v => some (toString v)
  | _ => none

/-- Error the handler returns on each delivery when it is called once per
delivery, in order. -/
def handlerResults {σ : Type} (handler : σ → Bytes → Option GoError × σ) :
    σ → List Delivery → List (Option GoError)
  | _, [] => []
  | s, msg :: rest =>
    (handler s msg.Body).1 :: handlerResults handler (handler s msg.Body).2 rest

/-- Acknowledgment owed to a delivery: `Ack` when the handler returned nil,
`Nack` with requeue otherwise. -/
def acknowledgment (msg : Delivery) (result : Option GoError) : ConsumeStep :=
  match result with
  | none => ConsumeStep.ack msg.DeliveryTag false
  | some _ => ConsumeStep.nack msg.DeliveryTag false true

/-- Bytes of an ASCII text. -/
def ascii (s : String) : Bytes := s.toList.map Char.toUInt8

/-- Flat-envelope message: its JSON text and the event `encoding/json` decodes
it to (an absent `old` is the nil map, absent integers are 0). -/
structure FlatMessage where
  body : Bytes
  event : CDCEvent

/-- Zero value of the structured envelope, what `json.Unmarshal` leaves in the
target when the JSON object has no `payload` key. -/
def zeroDebeziumEvent : DebeziumEvent :=
  { Payload := { Before := none, After := none, Source := { DB := "", Table := "" },
                 Op := "", TS := 0 } }

/-- Runtime on the flat-envelope message `m`: the structured decode of `m.body`
succeeds and leaves its target zero, the flat decode yields `m.event`. Other
bodies are not decoded, no timestamp string parses and the clock reads
1700000000. -/
def flatRuntime (m : FlatMessage) : Runtime :=
  { unmarshalDebezium := fun data =>
      if data = m.body then .ok zeroDebeziumEvent else .error "invalid character"
    unmarshalCDCEvent := fun data =>
      if data = m.body then .ok m.event else .error "invalid character"
    parseRFC3339 := fun _ => none
    now := fun _ => 1700000000 }

/-- Search index that accepts every call. -/
def acceptingIndex : SearchIndexRepository :=
  { UpsertDocument := fun _ _ _ => none
    DeleteDocument := fun _ _ _ => none }

/-- Search index that refuses every call. -/
def failingIndex : SearchIndexRepository :=
  { UpsertDocument := fun _ _ _ => some "typesense unavailable"
    DeleteDocument := fun _ _ _ => some "typesense unavailable" }

/-- Event with no `old` image and zero bookkeeping fields. -/
def mkEvent (database table typ : String) (data : GoMap) : CDCEvent :=
  { Database := database, Table := table, Typ := typ, Data := data, Old := none,
    TS := 0, Xid := 0, Xoffset := 0 }

/-- Insert on `posts` whose row has a title but no `id`. -/
def insertWithoutID : FlatMessage :=
  { body := ascii ("\x7b\"database\":\"blog\",\"table\":\"posts\",\"type\":\"insert\","
      ++ "\"data\":\x7b\"title\":\"Test Post\"\x7d,\"ts\":0\x7d")
    event := mkEvent "blog" "posts" "insert" (some [("title", Value.string "Test Post")]) }

/-- Insert on `posts` of row 1; `encoding/json` decodes the number as a float64. -/
def insertPost1 : FlatMessage :=
  { body := ascii ("\x7b\"database\":\"blog\",\"table\":\"posts\",\"type\":\"insert\","
      ++ "\"data\":\x7b\"body\":\"Test body\",\"id\":1,\"title\":\"Test Post\"\x7d,\"ts\":0\x7d")
    event := mkEvent "blog" "posts" "insert"
      (some [("body", Value.string "Test body"), ("id", Value.float64 1),
             ("title", Value.string "Test Post")]) }

/-- Delete of row 1 on table `users`. -/
def deleteUser1 : FlatMessage :=
  { body := ascii ("\x7b\"database\":\"blog\",\"table\":\"users\",\"type\":\"delete\","
      ++ "\"data\":\x7b\"id\":1\x7d,\"ts\":0\x7d")
    event := mkEvent "blog" "users" "delete" (some [("id", Value.float64 1)]) }

/-- Delete on `posts` whose row image is empty. -/
def deleteWithoutID : FlatMessage :=
  { body := ascii ("\x7b\"database\":\"blog\",\"table\":\"posts\",\"type\":\"delete\","
      ++ "\"data\":\x7b\x7d,\"ts\":0\x7d")
    event := mkEvent "blog" "posts" "delete" (some []) }

/-- Delete of row 1 on `posts`. -/
def deletePost1 : FlatMessage :=
  { body := ascii ("\x7b\"database\":\"blog\",\"table\":\"posts\",\"type\":\"delete\","
      ++ "\"data\":\x7b\"id\":1\x7d,\"ts\":0\x7d")
    event := mkEvent "blog" "posts" "delete" (some [("id", Value.float64 1)]) }

/-- Event of the invalid-event test: database and data set, table and type empty. -/
def eventWithoutTable : FlatMessage :=
  { body := ascii ("\x7b\"database\":\"blog\",\"table\":\"\",\"type\":\"\","
      ++ "\"data\":\x7b\"id\":1\x7d,\"ts\":0\x7d")
    event := mkEvent "blog" "" "" (some [("id", Value.float64 1)]) }

/-- Insert on table `users` whose `data` is JSON null. -/
def userInsertWithoutData : FlatMessage :=
  { body := ascii ("\x7b\"database\":\"blog\",\"table\":\"users\",\"type\":\"insert\","
      ++ "\"data\":null,\"ts\":0\x7d")
    event := mkEvent "blog" "users" "insert" none }

/-- Event of an unknown type on table `users`. -/
def userUnknownType : FlatMessage :=
  { body := ascii ("\x7b\"database\":\"blog\",\"table\":\"users\",\"type\":\"unknown\","
      ++ "\"data\":\x7b\x7d,\"ts\":0\x7d")
    event := mkEvent "blog" "users" "unknown" (some []) }

/-- Event on `posts` of a type outside the known set. -/
def unknownTypeEvent : FlatMessage :=
  { body := ascii ("\x7b\"database\":\"blog\",\"table\":\"posts\",\"type\":\"unknown\","
      ++ "\"data\":\x7b\"id\":1\x7d,\"ts\":0\x7d")
    event := mkEvent "blog" "posts" "unknown" (some [("id", Value.float64 1)]) }

/-- Marker `bootstrap-start` on `posts`, carrying a row all the same. -/
def bootstrapStartEvent : FlatMessage :=
  { body := ascii ("\x7b\"database\":\"blog\",\"table\":\"posts\",\"type\":\"bootstrap-start\","
      ++ "\"data\":\x7b\"id\":1\x7d,\"ts\":0\x7d")
    event := mkEvent "blog" "posts" "bootstrap-start" (some [("id", Value.float64 1)]) }

/-- Document the pipeline builds for `insertPost1` under `flatRuntime`. -/
def post1Document : SearchDocument :=
  { ID := "1", Title := "Test Post", Image := "", Excerpt := "", Body := "Test body",
    CreatedAt := 1700000000, UpdatedAt := 1700000000 }

/-- Channel whose set-up calls all succeed and that yields `msgs`. -/
def readyChannel (msgs : List Delivery) : Channel :=
  { QueueDeclare := fun name => .ok name
    ExchangeDeclare := fun _ _ => none
    QueueBind := fun _ _ _ => none
    Qos := fun _ _ _ => none
    Consume := fun _ => .ok msgs }

/-- Handler without state that fails exactly on the empty body. -/
def rejectEmpty (s : Unit) (body : Bytes) : Option GoError × Unit :=
  if body = [] then (some "unexpected end of JSON input", s) else (none, s)

/-- Integer carried by a numeric value: a Go int or int64, or a float64 that
holds an integer of the int64 range. -/
def wholeNumber : Value → Option Int
  | Value.int v => some v
  | Value.int64 v => some v
  | Value.float64 f =>
    if f.den = 1 ∧ minInt64 ≤ f.num ∧ f.num ≤ maxInt64 then some f.num else none
  | _ => none

/-- Structured-envelope message: its JSON text and the envelope `encoding/json`
decodes it to. -/
structure StructuredMessage where
  body : Bytes
  envelope : DebeziumEvent

/-- Zero value of `CDCEvent`, what `json.Unmarshal` leaves in the target when
the JSON object has none of the flat keys. -/
def zeroCDCEvent : CDCEvent := mkEvent "" "" "" none

/-- Runtime on the structured-envelope message `m`: the structured decode of
`m.body` yields `m.envelope`, the flat decode succeeds and leaves its target
zero. Other bodies are not decoded, no timestamp string parses and the clock
reads 1700000000. -/
def structuredRuntime (m : StructuredMessage) : Runtime :=
  { unmarshalDebezium := fun data =>
      if data = m.body then .ok m.envelope else .error "invalid character"
    unmarshalCDCEvent := fun data =>
      if data = m.body then .ok zeroCDCEvent else .error "invalid character"
    parseRFC3339 := fun _ => none
    now := fun _ => 1700000000 }

/-- Update of row 1 on `posts` in the structured envelope. -/
def updatePost1 : StructuredMessage :=
  { body := ascii ("\x7b\"payload\":\x7b\"before\":\x7b\"id\":1,\"title\":\"Old title\"\x7d,"
      ++ "\"after\":\x7b\"id\":1,\"title\":\"New title\"\x7d,"
      ++ "\"source\":\x7b\"db\":\"blog\",\"table\":\"posts\"\x7d,"
      ++ "\"op\":\"u\",\"ts_ms\":1756051794247\x7d\x7d")
    envelope :=
      { Payload :=
          { Before := some [("id", Value.float64 1), ("title", Value.string "Old title")]
            After := some [("id", Value.float64 1), ("title", Value.string "New title")]
            Source := { DB := "blog", Table := "posts" }
            Op := "u"
            TS := 1756051794247 } } }

/-- Body of the invalid-JSON tests. -/
def invalidJSON : Bytes := ascii "\x7b\"invalid\": json\x7d"

/-- Runtime on a body that is not well-formed JSON: `json.Unmarshal` reports the
syntax error whatever the target. -/
def rejectingRuntime : Runtime :=
  { unmarshalDebezium := fun _ => .error "invalid character"
    unmarshalCDCEvent := fun _ => .error "invalid character"
    parseRFC3339 := fun _ => none
    now := fun _ => 1700000000 }

/-- Row of the mixed-timestamps test: `created_at` above the threshold,
`updated_at` already in seconds. -/
def mixedTimestampsRow : GoMap :=
  some [("id", Value.int 3), ("created_at", Value.int 1756051794247827),
        ("updated_at", Value.int 1756057014)]

/-- Row of the nanosecond-timestamps test, as the flat envelope decodes it. -/
def largeTimestampsRow : GoMap :=
  some [("id", Value.float64 1), ("created_at", Value.float64 1756051794247827),
        ("updated_at", Value.float64 1756051794247827)]

/-- Unit in which a producer counts time since the epoch. -/
inductive TimeUnit where
  | seconds
  | milliseconds
  | microseconds
  | nanoseconds
  deriving DecidableEq, Repr

/-- Nanoseconds in one tick of the unit. -/
def TimeUnit.nanos : TimeUnit → Int
  | TimeUnit.seconds => 1000000000
  | TimeUnit.milliseconds => 1000000
  | TimeUnit.microseconds => 1000
  | TimeUnit.nanoseconds => 1

/-- Number a producer writes for the instant `n` nanoseconds after the epoch
when it counts in `unit`; in seconds this is the instant in whole unix seconds. -/
def encodeInstant (unit : TimeUnit) (n : Int) : Int := n / unit.nanos

/-- Row whose `created_at` is in microseconds and whose `updated_at` is in
milliseconds, both for the instant 1756051794.247827 s. -/
def subSecondRow : GoMap :=
  some [("id", Value.float64 1), ("created_at", Value.float64 1756051794247827),
        ("updated_at", Value.float64 1756051794247)]

/-- Row of the projection test with every field set and RFC3339 timestamps. -/
def fullRow : GoMap :=
  some [("id", Value.int 1), ("title", Value.string "Test Post"),
        ("body", Value.string "Test body"), ("image", Value.string "test.jpg"),
        ("excerpt", Value.string "Test excerpt"),
        ("created_at", Value.string "2023-01-01T00:00:00Z"),
        ("updated_at", Value.string "2023-01-01T00:00:00Z")]

/-- Row of the invalid-id-type test. -/
def textIDRow : GoMap :=
  some [("id", Value.string "invalid"), ("title", Value.string "Test Post"),
        ("body", Value.string "Test body")]

/-- Runtime of the projection tests: `2023-01-01T00:00:00Z` parses to
1672531200, no other string parses, and the clock reads 1700000000. -/
def projectionRuntime : Runtime :=
  { unmarshalDebezium := fun _ => .error "invalid character"
    unmarshalCDCEvent := fun _ => .error "invalid character"
    parseRFC3339 := fun t => if t = "2023-01-01T00:00:00Z" then some 1672531200 else none
    now := fun _ => 1700000000 }

/-- Row with a title, no image or excerpt, a body that is not a string and
no timestamps. -/
def looseRow : GoMap :=
  some [("id", Value.float64 7), ("title", Value.string "Test Post"),
        ("body", Value.float64 42)]

/-! ## Start-up of the service (cdc_service.go, StartCDC) -/

/-- Schema that `ensurePostsCollection` submits to `CreateCollection`. -/
def postsSchema : GoMap :=
  some [("name", Value.string "posts"),
        ("fields", Value.slice [
          Value.map [("name", Value.string "id"), ("type", Value.string "string")],
          Value.map [("name", Value.string "title"), ("type", Value.string "string"),
                     ("facet", Value.bool false), ("index", Value.bool true)],
          Value.map [("name", Value.string "image"), ("type", Value.string "string"),
                     ("optional", Value.bool true), ("facet", Value.bool false),
                     ("index", Value.bool false)],
          Value.map [("name", Value.string "excerpt"), ("type", Value.string "string"),
                     ("optional", Value.bool true), ("facet", Value.bool false),
                     ("index", Value.bool true)],
          Value.map [("name", Value.string "body"), ("type", Value.string "string"),
                     ("facet", Value.bool false), ("index", Value.bool true)],
          Value.map [("name", Value.string "created_at"), ("type", Value.string "int64"),
                     ("facet", Value.bool false), ("index", Value.bool true)],
          Value.map [("name", Value.string "updated_at"), ("type", Value.string "int64"),
                     ("facet", Value.bool false), ("index", Value.bool false)]]),
        ("default_sorting_field", Value.string "created_at")]

/-- One call `StartCDC` makes on the message queue or the search index. -/
inductive StartupCall where
  | messageQueueConnect
  | messageQueueClose
  | searchIndexConnect
  | searchIndexClose
  | createCollection (schema : GoMap)
  | consumeMessages (queueName : String)

/-- The two repositories as `StartCDC` sees them: the error each call returns,
as a function of the calls made before it. `ConsumeMessages` is given the
handler `handleMessage`; the results of `Close` are discarded by the service. -/
structure Repositories where
  messageQueueConnect : List StartupCall → Option GoError
  searchIndexConnect : List StartupCall → Option GoError
  CreateCollection : List StartupCall → GoMap → Option GoError
  ConsumeMessages : List StartupCall → String → Option GoError

def ensurePostsCollection (r : Repositories) (log : List StartupCall) :
    Option GoError × List StartupCall :=
  let schema := postsSchema
  match r.CreateCollection log schema with
  | some _ => (none, log ++ [StartupCall.createCollection schema])
  | none => (none, log ++ [StartupCall.createCollection schema])

/-- Start of the pipeline: the returned error and the calls made, in order. A
deferred `Close` runs when the function returns, last deferred first. -/
def StartCDC (r : Repositories) (queueName : String) : Option GoError × List StartupCall :=
  match r.messageQueueConnect [] with
  | some err => (some ("failed to connect to RabbitMQ: " ++ err),
      [StartupCall.messageQueueConnect])
  | none =>
    let log1 := [StartupCall.messageQueueConnect]
    match r.searchIndexConnect log1 with
    | some err => (some ("failed to connect to Typesense: " ++ err),
        log1 ++ [StartupCall.searchIndexConnect, StartupCall.messageQueueClose])
    | none =>
      let log2 := log1 ++ [StartupCall.searchIndexConnect]
      match ensurePostsCollection r log2 with
      | (some err, log3) => (some ("failed to ensure posts collection: " ++ err),
          log3 ++ [StartupCall.searchIndexClose, StartupCall.messageQueueClose])
      | (none, log3) =>
        (r.ConsumeMessages log3 queueName,
          log3 ++ [StartupCall.consumeMessages queueName, StartupCall.searchIndexClose,
                   StartupCall.messageQueueClose])

/-- Repositories of the start-up tests: each call returns the given error. -/
def mockRepositories (mqConnect searchConnect createCollection : Option GoError) :
    Repositories :=
  { messageQueueConnect := fun _ => mqConnect
    searchIndexConnect := fun _ => searchConnect
    CreateCollection := fun _ _ => createCollection
    ConsumeMessages := fun _ _ => none }

/-- Row of the missing-id test. -/
def rowWithoutID : GoMap :=
  some [("title", Value.string "Test Post"), ("body", Value.string "Test body")]

/-- Row with text timestamps, as the flat envelope of the insert test carries them. -/
def textTimestampsRow : GoMap :=
  some [("id", Value.float64 1), ("created_at", Value.string "2023-01-01 00:00:00"),
        ("updated_at", Value.string "2023-01-01 00:00:00")]

/-- Delete on `posts` in the structured envelope whose `before` image is null. -/
def deleteWithoutImage : StructuredMessage :=
  { body := ascii ("\x7b\"payload\":\x7b\"before\":null,\"after\":null,"
      ++ "\"source\":\x7b\"db\":\"blog\",\"table\":\"posts\"\x7d,"
      ++ "\"op\":\"d\",\"ts_ms\":1756051794247\x7d\x7d")
    envelope :=
      { Payload :=
          { Before := none
            After := none
            Source := { DB := "blog", Table := "posts" }
            Op := "d"
            TS := 1756051794247 } } }

/-- Runtime on a message that carries both envelopes: the structured decode of
`body` yields `envelope` and the flat decode yields `event`. Other bodies are
not decoded, no timestamp string parses and the clock reads 1700000000. -/
def dualRuntime (body : Bytes) (envelope : DebeziumEvent) (event : CDCEvent) : Runtime :=
  { unmarshalDebezium := fun data =>
      if data = body then .ok envelope else .error "invalid character"
    unmarshalCDCEvent := fun data =>
      if data = body then .ok event else .error "invalid character"
    parseRFC3339 := fun _ => none
    now := fun _ => 1700000000 }

/-- Body with a complete flat envelope and a `payload` whose source names the
database but not the table. -/
def halfSourceBody : Bytes :=
  ascii ("\x7b\"database\":\"blog\",\"table\":\"posts\",\"type\":\"insert\",\"data\":\x7b\"id\":1\x7d,"
    ++ "\"payload\":\x7b\"after\":\x7b\"id\":1\x7d,\"source\":\x7b\"db\":\"blog\"\x7d,\"op\":\"c\"\x7d\x7d")

/-- Structured decode of `halfSourceBody`. -/
def halfSourceEnvelope : DebeziumEvent :=
  { Payload :=
      { Before := none
        After := some [("id", Value.float64 1)]
        Source := { DB := "blog", Table := "" }
        Op := "c"
        TS := 0 } }

/-- Flat decode of `halfSourceBody`. -/
def halfSourceFlatEvent : CDCEvent :=
  mkEvent "blog" "posts" "insert" (some [("id", Value.float64 1)])

/-! ## Replay against a map index -/

/-- Modelled from the spec: the search engine as a map from collection and
document id to the document stored under it. -/
abbrev IndexState := String → String → Option SearchDocument

/-- Index that holds no document. -/
def emptyIndexState : IndexState := fun _ _ => none

/-- Modelled from the spec: effect of one call on the index. `Upsert` is
replace-or-insert keyed by the document id, `Delete` removes the document with
that id. -/
def applyCall (st : IndexState) : SinkCall → IndexState
  | SinkCall.upsert c d => fun c' i => if c' = c ∧ i = d.ID then some d else st c' i
  | SinkCall.delete c i => fun c' i' => if c' = c ∧ i' = i then none else st c' i'

/-- Index after the calls of a log, oldest first. -/
def applyCalls (st : IndexState) (log : List SinkCall) : IndexState :=
  log.foldl applyCall st

/-- Same library behaviour at another time: only the clock differs. -/
def withClock (rt : Runtime) (clock : Nat → Int) : Runtime :=
  { rt with now := clock }

/-- Call log after the same message is handled once per clock of the list, in
order: one delivery and its redeliveries. -/
def replay (rt : Runtime) (idx : SearchIndexRepository) (message : Bytes) :
    List (Nat → Int) → List SinkCall → List SinkCall
  | [], log => log
  | clock :: rest, log =>
    replay rt idx message rest (handleMessage (withClock rt clock) idx log message).2

/-- Insert on `posts` of row 1 with timestamps in seconds. -/
def insertDatedPost1 : FlatMessage :=
  { body := ascii ("\x7b\"database\":\"blog\",\"table\":\"posts\",\"type\":\"insert\","
      ++ "\"data\":\x7b\"created_at\":1756057014,\"id\":1,\"title\":\"Test Post\","
      ++ "\"updated_at\":1756057014\x7d,\"ts\":0\x7d")
    event := mkEvent "blog" "posts" "insert"
      (some [("created_at", Value.float64 1756057014), ("id", Value.float64 1),
             ("title", Value.string "Test Post"),
             ("updated_at", Value.float64 1756057014)]) }

/-! ## Lemmas -/

theorem lookup_cons_eq (k : String) (v : Value) (fs : List (String × Value)) :
    List.lookup k ((k, v) :: fs) = some v := by
  simp [List.lookup]

theorem lookup_cons_ne (k k' : String) (v : Value) (fs : List (String × Value))
    (h : k' ≠ k) : List.lookup k' ((k, v) :: fs) = List.lookup k' fs := by
  have hb : (k' == k) = false := by simpa using h
  simp [List.lookup, hb]

theorem lookup_setField (k k' : String) (v : Value) (fs : List (String × Value)) :
    (setField k v fs).lookup k' = if k' = k then some v else fs.lookup k' := by
  induction fs with
  | nil =>
    by_cases h : k' = k
    · subst h
      simp [setField, lookup_cons_eq]
    · simp [setField, lookup_cons_ne _ _ _ _ h, h]
  | cons p rest ih =>
    obtain ⟨a, b⟩ := p
    by_cases ha : a = k
    · subst ha
      by_cases h : k' = a
      · subst h
        simp [setField, lookup_cons_eq]
      · simp [setField, lookup_cons_ne _ _ _ _ h, h]
    · by_cases h : k' = a
      · subst h
        have hk : ¬ k' = k := ha
        simp [setField, ha, lookup_cons_eq, hk]
      · simp [setField, ha, lookup_cons_ne _ _ _ _ h, ih]

theorem get_set (m : GoMap) (k k' : String) (v : Value) (h : k' ≠ k) :
    (m.set k v).get k' = m.get k' := by
  cases m with
  | none => rfl
  | some fs => simp [GoMap.set, GoMap.get, lookup_setField, h]

theorem get_convertTimestampKey (data : GoMap) (k k' : String) (h : k' ≠ k) :
    (convertTimestampKey data k).get k' = data.get k' := by
  unfold convertTimestampKey
  split
  · split
    · exact get_set _ _ _ _ h
    · rfl
  · split
    · exact get_set _ _ _ _ h
    · rfl
  · split
    · exact get_set _ _ _ _ h
    · rfl
  · rfl

theorem get_convertTimestamps (data : GoMap) (k : String)
    (h1 : k ≠ "created_at") (h2 : k ≠ "updated_at") :
    (convertTimestamps data).get k = data.get k := by
  unfold convertTimestamps
  rw [get_convertTimestampKey _ _ _ h2, get_convertTimestampKey _ _ _ h1]

theorem isValid_iff (e : CDCEvent) :
    e.IsValid = true ↔ e.Database ≠ "" ∧ e.Table ≠ "" ∧ e.Typ ≠ "" ∧ e.Data ≠ none := by
  cases hd : e.Data <;> simp [CDCEvent.IsValid, hd, and_assoc]

theorem handleUpsert_of_doc (rt : Runtime) (idx : SearchIndexRepository) (log : List SinkCall)
    (event : CDCEvent) (doc : SearchDocument)
    (h : NewSearchDocumentFromMap rt (convertTimestamps event.Data) = .ok doc) :
    handleUpsert rt idx log event
      = (idx.UpsertDocument log "posts" doc, log ++ [SinkCall.upsert "posts" doc]) := by
  unfold handleUpsert
  simp only [h]
  cases hu : idx.UpsertDocument log "posts" doc <;> rfl

theorem handleUpsert_of_error (rt : Runtime) (idx : SearchIndexRepository) (log : List SinkCall)
    (event : CDCEvent) (err : GoError)
    (h : NewSearchDocumentFromMap rt (convertTimestamps event.Data) = .error err) :
    handleUpsert rt idx log event = (some err, log) := by
  unfold handleUpsert
  simp only [h]

theorem handleDelete_of_id (idx : SearchIndexRepository) (log : List SinkCall)
    (event : CDCEvent) (id : Int) (h : event.GetID = some id) :
    handleDelete idx log event
      = (idx.DeleteDocument log "posts" (toString id),
         log ++ [SinkCall.delete "posts" (toString id)]) := by
  unfold handleDelete
  simp only [h]
  cases hd : idx.DeleteDocument log "posts" (toString id) <;> rfl

theorem handleDelete_of_none (idx : SearchIndexRepository) (log : List SinkCall)
    (event : CDCEvent) (h : event.GetID = none) :
    handleDelete idx log event = (some "failed to extract ID from delete event", log) := by
  unfold handleDelete
  simp only [h]

theorem handleMessage_upsert_path (rt : Runtime) (idx : SearchIndexRepository)
    (log : List SinkCall) (message : Bytes) (event : CDCEvent)
    (hparse : FromDebeziumJSON rt message = .ok event) (hvalid : event.IsValid = true)
    (htable : event.Table = "posts")
    (htype : event.Typ = EventTypeInsert ∨ event.Typ = EventTypeUpdate
      ∨ event.Typ = EventTypeBootstrapInsert) :
    handleMessage rt idx log message = handleUpsert rt idx log event := by
  unfold handleMessage
  simp [hparse, hvalid, htable, htype]

theorem handleMessage_delete_path (rt : Runtime) (idx : SearchIndexRepository)
    (log : List SinkCall) (message : Bytes) (event : CDCEvent)
    (hparse : FromDebeziumJSON rt message = .ok event) (hvalid : event.IsValid = true)
    (htable : event.Table = "posts") (htype : event.Typ = EventTypeDelete) :
    handleMessage rt idx log message = handleDelete idx log event := by
  unfold handleMessage
  simp [hparse, hvalid, htable, htype, EventTypeDelete, EventTypeInsert, EventTypeUpdate,
    EventTypeBootstrapInsert]

theorem newSearchDocument_of_id (rt : Runtime) (data : GoMap) (v : Value) (s : String)
    (hv : data.get "id" = some v) (hs : idDecimal v = some s) :
    ∃ doc, NewSearchDocumentFromMap rt data = .ok doc ∧ doc.ID = s := by
  unfold NewSearchDocumentFromMap
  cases v <;> simp_all [idDecimal]

theorem newSearchDocument_of_no_id (rt : Runtime) (data : GoMap)
    (h : (data.get "id").bind idDecimal = none) :
    NewSearchDocumentFromMap rt data = .error ErrPostNotFound := by
  unfold NewSearchDocumentFromMap
  cases hv : data.get "id" with
  | none => rfl
  | some v => cases v <;> simp_all [idDecimal]

theorem getID_of_id (event : CDCEvent) (v : Value) (s : String)
    (hv : event.Data.get "id" = some v) (hs : idDecimal v = some s) :
    ∃ id, event.GetID = some id ∧ toString id = s := by
  unfold CDCEvent.GetID
  cases v <;> simp_all [idDecimal]

theorem getID_of_no_id (event : CDCEvent)
    (h : (event.Data.get "id").bind idDecimal = none) : event.GetID = none := by
  unfold CDCEvent.GetID
  cases hv : event.Data.get "id" with
  | none => rfl
  | some v => cases v <;> simp_all [idDecimal]

theorem consumeLoop_steps {σ : Type} (handler : σ → Bytes → Option GoError × σ)
    (msgs : List Delivery) (s : σ) :
    (consumeLoop handler s msgs).1
      = (List.zipWith (fun msg r => [ConsumeStep.handler msg.Body, acknowledgment msg r])
          msgs (handlerResults handler s msgs)).flatten := by
  induction msgs generalizing s with
  | nil => rfl
  | cons msg rest ih =>
    cases hh : handler s msg.Body with
    | mk r s1 =>
      have ih1 := ih s1
      cases r with
      | none => simp [consumeLoop, handlerResults, hh, acknowledgment, ih1]
      | some err => simp [consumeLoop, handlerResults, hh, acknowledgment, ih1]

theorem handlerResults_length {σ : Type} (handler : σ → Bytes → Option GoError × σ)
    (msgs : List Delivery) (s : σ) :
    (handlerResults handler s msgs).length = msgs.length := by
  induction msgs generalizing s with
  | nil => rfl
  | cons msg rest ih => simp [handlerResults, ih]

/-! ## Routing of one message -/

/-- C1, as stated, fails: a valid insert event on table posts whose data has no
id is rejected with the error of the document projection and UpsertDocument is
not called. -/
theorem upsert_claim_fails_without_id :
    FromDebeziumJSON (flatRuntime insertWithoutID) insertWithoutID.body
        = .ok insertWithoutID.event
      ∧ insertWithoutID.event.IsValid = true
      ∧ insertWithoutID.event.Table = "posts"
      ∧ insertWithoutID.event.Typ = EventTypeInsert
      ∧ handleMessage (flatRuntime insertWithoutID) acceptingIndex [] insertWithoutID.body
          = (some "post not found", []) := by
  refine ⟨rfl, ?_, rfl, rfl, ?_⟩ <;> decide

/-- C1, amended: for every valid event on table posts whose type is insert,
update or bootstrap-insert and whose data holds an id that is a float64, int or
int64, handleMessage makes exactly one call on the index, UpsertDocument on
collection posts with a document whose ID is the decimal string of the id, and
returns what that call returns; DeleteDocument is not called. -/
theorem handleMessage_upserts_once (rt : Runtime) (idx : SearchIndexRepository)
    (log : List SinkCall) (message : Bytes) (event : CDCEvent) (s : String)
    (hparse : FromDebeziumJSON rt message = .ok event) (hvalid : event.IsValid = true)
    (htable : event.Table = "posts")
    (htype : event.Typ = EventTypeInsert ∨ event.Typ = EventTypeUpdate
      ∨ event.Typ = EventTypeBootstrapInsert)
    (hid : (event.Data.get "id").bind idDecimal = some s) :
    ∃ doc : SearchDocument, doc.ID = s
      ∧ handleMessage rt idx log message
          = (idx.UpsertDocument log "posts" doc, log ++ [SinkCall.upsert "posts" doc]) := by
  cases hv : event.Data.get "id" with
  | none => simp [hv] at hid
  | some v =>
    have hs : idDecimal v = some s := by simpa [hv] using hid
    have hv2 : (convertTimestamps event.Data).get "id" = some v := by
      rw [get_convertTimestamps _ _ (by decide) (by decide)]
      exact hv
    obtain ⟨doc, hdoc, hID⟩ := newSearchDocument_of_id rt _ v s hv2 hs
    refine ⟨doc, hID, ?_⟩
    rw [handleMessage_upsert_path rt idx log message event hparse hvalid htable htype]
    exact handleUpsert_of_doc rt idx log event doc hdoc

theorem handleMessage_upserts_once_witness :
    ∃ doc : SearchDocument, doc.ID = "1"
      ∧ handleMessage (flatRuntime insertPost1) acceptingIndex [] insertPost1.body
          = (acceptingIndex.UpsertDocument [] "posts" doc,
             [] ++ [SinkCall.upsert "posts" doc]) :=
  handleMessage_upserts_once (flatRuntime insertPost1) acceptingIndex [] insertPost1.body
    insertPost1.event "1"
    rfl (by decide) rfl (Or.inl rfl) (by decide)

/-- C2, as stated, fails: a valid delete event on another table is skipped, and
a valid delete event on posts whose data has no id is rejected; in both cases
DeleteDocument is not called. -/
theorem delete_claim_fails :
    (FromDebeziumJSON (flatRuntime deleteUser1) deleteUser1.body = .ok deleteUser1.event
      ∧ deleteUser1.event.IsValid = true ∧ deleteUser1.event.Typ = EventTypeDelete
      ∧ handleMessage (flatRuntime deleteUser1) acceptingIndex [] deleteUser1.body = (none, []))
    ∧ (FromDebeziumJSON (flatRuntime deleteWithoutID) deleteWithoutID.body
          = .ok deleteWithoutID.event
      ∧ deleteWithoutID.event.IsValid = true ∧ deleteWithoutID.event.Typ = EventTypeDelete
      ∧ handleMessage (flatRuntime deleteWithoutID) acceptingIndex [] deleteWithoutID.body
          = (some "failed to extract ID from delete event", [])) := by
  refine ⟨⟨rfl, ?_, rfl, ?_⟩, ⟨rfl, ?_, rfl, ?_⟩⟩ <;> decide

/-- C2, amended: for every valid delete event on table posts whose data holds an
id that is a float64, int or int64, handleMessage makes exactly one call on the
index, DeleteDocument on collection posts with the decimal string of the id read
from the event data, and returns what that call returns; UpsertDocument is not
called. -/
theorem handleMessage_deletes_once (rt : Runtime) (idx : SearchIndexRepository)
    (log : List SinkCall) (message : Bytes) (event : CDCEvent) (s : String)
    (hparse : FromDebeziumJSON rt message = .ok event) (hvalid : event.IsValid = true)
    (htable : event.Table = "posts") (htype : event.Typ = EventTypeDelete)
    (hid : (event.Data.get "id").bind idDecimal = some s) :
    handleMessage rt idx log message
      = (idx.DeleteDocument log "posts" s, log ++ [SinkCall.delete "posts" s]) := by
  cases hv : event.Data.get "id" with
  | none => simp [hv] at hid
  | some v =>
    have hs : idDecimal v = some s := by simpa [hv] using hid
    obtain ⟨id, hget, hstr⟩ := getID_of_id event v s hv hs
    rw [handleMessage_delete_path rt idx log message event hparse hvalid htable htype,
      handleDelete_of_id idx log event id hget, hstr]

theorem handleMessage_deletes_once_witness :
    handleMessage (flatRuntime deletePost1) acceptingIndex [] deletePost1.body
      = (acceptingIndex.DeleteDocument [] "posts" "1", [] ++ [SinkCall.delete "posts" "1"]) :=
  handleMessage_deletes_once (flatRuntime deletePost1) acceptingIndex [] deletePost1.body
    deletePost1.event "1"
    rfl (by decide) rfl rfl (by decide)

/-- C3: on the upsert and delete paths a message is reported as handled only
after the index write succeeded. For a valid event on posts of type insert,
update, bootstrap-insert or delete: an error returned by UpsertDocument or
DeleteDocument is returned by handleMessage; a failed document projection or id
extraction gives a non-nil error and no call on the index; and handleMessage
returns nil only when it made exactly one call on the index and that call
returned nil. -/
theorem handleMessage_nil_only_after_write (rt : Runtime) (idx : SearchIndexRepository)
    (log : List SinkCall) (message : Bytes) (event : CDCEvent)
    (hparse : FromDebeziumJSON rt message = .ok event) (hvalid : event.IsValid = true)
    (htable : event.Table = "posts")
    (htype : event.Typ = EventTypeInsert ∨ event.Typ = EventTypeUpdate
      ∨ event.Typ = EventTypeBootstrapInsert ∨ event.Typ = EventTypeDelete) :
    (∀ doc err, event.Typ ≠ EventTypeDelete →
        NewSearchDocumentFromMap rt (convertTimestamps event.Data) = .ok doc →
        idx.UpsertDocument log "posts" doc = some err →
        handleMessage rt idx log message = (some err, log ++ [SinkCall.upsert "posts" doc]))
    ∧ (∀ id err, event.Typ = EventTypeDelete → event.GetID = some id →
        idx.DeleteDocument log "posts" (toString id) = some err →
        handleMessage rt idx log message
          = (some err, log ++ [SinkCall.delete "posts" (toString id)]))
    ∧ (∀ err, event.Typ ≠ EventTypeDelete →
        NewSearchDocumentFromMap rt (convertTimestamps event.Data) = .error err →
        handleMessage rt idx log message = (some err, log))
    ∧ (event.Typ = EventTypeDelete → event.GetID = none →
        (handleMessage rt idx log message).1 ≠ none
          ∧ (handleMessage rt idx log message).2 = log)
    ∧ ((handleMessage rt idx log message).1 = none →
        ∃ call, (handleMessage rt idx log message).2 = log ++ [call]
          ∧ idx.answer log call = none) := by
  by_cases hdel : event.Typ = EventTypeDelete
  · have hpath := handleMessage_delete_path rt idx log message event hparse hvalid htable hdel
    refine ⟨fun _ _ h => absurd hdel h, ?_, fun _ h => absurd hdel h, ?_, ?_⟩
    · intro id err _ hid herr
      rw [hpath, handleDelete_of_id idx log event id hid, herr]
    · intro _ hid
      rw [hpath, handleDelete_of_none idx log event hid]
      simp
    · intro hnil
      rw [hpath] at hnil ⊢
      cases hid : event.GetID with
      | none =>
        rw [handleDelete_of_none idx log event hid] at hnil
        simp at hnil
      | some id =>
        rw [handleDelete_of_id idx log event id hid] at hnil ⊢
        exact ⟨SinkCall.delete "posts" (toString id), rfl, hnil⟩
  · have hup : event.Typ = EventTypeInsert ∨ event.Typ = EventTypeUpdate
        ∨ event.Typ = EventTypeBootstrapInsert := by
      rcases htype with h | h | h | h
      · exact Or.inl h
      · exact Or.inr (Or.inl h)
      · exact Or.inr (Or.inr h)
      · exact absurd h hdel
    have hpath := handleMessage_upsert_path rt idx log message event hparse hvalid htable hup
    refine ⟨?_, fun _ _ h => absurd h hdel, ?_, fun h => absurd h hdel, ?_⟩
    · intro doc err _ hdoc herr
      rw [hpath, handleUpsert_of_doc rt idx log event doc hdoc, herr]
    · intro err _ hdoc
      rw [hpath, handleUpsert_of_error rt idx log event err hdoc]
    · intro hnil
      rw [hpath] at hnil ⊢
      cases hdoc : NewSearchDocumentFromMap rt (convertTimestamps event.Data) with
      | error err =>
        rw [handleUpsert_of_error rt idx log event err hdoc] at hnil
        simp at hnil
      | ok doc =>
        rw [handleUpsert_of_doc rt idx log event doc hdoc] at hnil ⊢
        exact ⟨SinkCall.upsert "posts" doc, rfl, hnil⟩

theorem handleMessage_nil_only_after_write_witness :
    handleMessage (flatRuntime insertPost1) failingIndex [] insertPost1.body
      = (some "typesense unavailable", [] ++ [SinkCall.upsert "posts" post1Document]) :=
  (handleMessage_nil_only_after_write (flatRuntime insertPost1) failingIndex [] insertPost1.body
    insertPost1.event rfl (by decide) rfl (Or.inl rfl)).1 post1Document "typesense unavailable"
    (by decide) rfl rfl

/-- C4: once the consumer is set up, the consume loop passes every delivery of
the stream to the handler, in order, and follows each handler invocation with
exactly one acknowledgment for that delivery: Ack when the handler returned nil,
Nack with requeue=true otherwise. A handler error does not end the loop, and
ConsumeMessages returns nil when the stream is closed. -/
theorem consumeMessages_acknowledges_each {σ : Type} (ch : Channel) (queueName queue : String)
    (handler : σ → Bytes → Option GoError × σ) (s : σ) (msgs : List Delivery)
    (hdeclare : ch.QueueDeclare queueName = .ok queue)
    (hexchange : ch.ExchangeDeclare "maxwell" "fanout" = none)
    (hbind : ch.QueueBind queueName "blog.posts" "maxwell" = none)
    (hqos : ch.Qos 1 0 false = none)
    (hconsume : ch.Consume queue = .ok msgs) :
    (ConsumeMessages ch queueName handler s).1 = none
      ∧ (ConsumeMessages ch queueName handler s).2.1
          = (List.zipWith (fun msg r => [ConsumeStep.handler msg.Body, acknowledgment msg r])
              msgs (handlerResults handler s msgs)).flatten
      ∧ (handlerResults handler s msgs).length = msgs.length
      ∧ (∀ msg r, acknowledgment msg r = ConsumeStep.ack msg.DeliveryTag false ↔ r = none)
      ∧ (∀ msg r, acknowledgment msg r = ConsumeStep.nack msg.DeliveryTag false true
          ↔ r ≠ none) := by
  refine ⟨?_, ?_, handlerResults_length handler msgs s, ?_, ?_⟩
  · simp [ConsumeMessages, hdeclare, hexchange, hbind, hqos, hconsume]
  · simp [ConsumeMessages, hdeclare, hexchange, hbind, hqos, hconsume,
      consumeLoop_steps handler msgs s]
  · intro msg r
    cases r <;> simp [acknowledgment]
  · intro msg r
    cases r <;> simp [acknowledgment]

theorem consumeMessages_acknowledges_each_witness :
    (ConsumeMessages (readyChannel [⟨1, []⟩, ⟨2, [123, 125]⟩]) "cdc-posts" rejectEmpty ()).2.1
      = [ConsumeStep.handler [], ConsumeStep.nack 1 false true,
         ConsumeStep.handler [123, 125], ConsumeStep.ack 2 false] :=
  (consumeMessages_acknowledges_each (readyChannel [⟨1, []⟩, ⟨2, [123, 125]⟩]) "cdc-posts"
    "cdc-posts" rejectEmpty () [⟨1, []⟩, ⟨2, [123, 125]⟩] rfl rfl rfl rfl rfl).2.1

/-- C5: a message whose normalized event has an empty database, table or type,
or nil data, is rejected with the error "invalid CDC event" and neither
UpsertDocument nor DeleteDocument is called. -/
theorem handleMessage_rejects_invalid (rt : Runtime) (idx : SearchIndexRepository)
    (log : List SinkCall) (message : Bytes) (event : CDCEvent)
    (hparse : FromDebeziumJSON rt message = .ok event)
    (hinvalid : event.Database = "" ∨ event.Table = "" ∨ event.Typ = ""
      ∨ event.Data = none) :
    handleMessage rt idx log message = (some "invalid CDC event", log) := by
  have hv : event.IsValid = false := by
    cases h : event.IsValid with
    | false => rfl
    | true =>
      obtain ⟨h1, h2, h3, h4⟩ := (isValid_iff event).mp h
      rcases hinvalid with h' | h' | h' | h'
      · exact absurd h' h1
      · exact absurd h' h2
      · exact absurd h' h3
      · exact absurd h' h4
  unfold handleMessage
  simp [hparse, hv]

theorem handleMessage_rejects_invalid_witness :
    handleMessage (flatRuntime eventWithoutTable) acceptingIndex [] eventWithoutTable.body
      = (some "invalid CDC event", []) :=
  handleMessage_rejects_invalid (flatRuntime eventWithoutTable) acceptingIndex []
    eventWithoutTable.body eventWithoutTable.event rfl (Or.inr (Or.inl rfl))

/-- C6: IsValid holds exactly when database, table and type are non-empty and
data is non-nil; an empty but non-nil data map counts as valid. -/
theorem isValid_iff_fields_set :
    (∀ e : CDCEvent, e.IsValid = true
        ↔ e.Database ≠ "" ∧ e.Table ≠ "" ∧ e.Typ ≠ "" ∧ e.Data ≠ none)
      ∧ (mkEvent "blog" "posts" "insert" (some [])).IsValid = true :=
  ⟨isValid_iff, by decide⟩

/-- C7, as stated, fails: an event on a table other than posts that is not
valid (here its data is nil) is reported as an error, not as success. -/
theorem non_posts_claim_fails_when_invalid :
    FromDebeziumJSON (flatRuntime userInsertWithoutData) userInsertWithoutData.body
        = .ok userInsertWithoutData.event
      ∧ userInsertWithoutData.event.Table ≠ "posts"
      ∧ handleMessage (flatRuntime userInsertWithoutData) acceptingIndex []
          userInsertWithoutData.body
          = (some "invalid CDC event", []) := by
  refine ⟨rfl, ?_, ?_⟩ <;> decide

/-- C7, amended: for all events where table != "posts", handleMessage calls
neither UpsertDocument nor DeleteDocument; it reports success when the event is
valid and returns the error "invalid CDC event" when it is not. -/
theorem handleMessage_non_posts_no_call (rt : Runtime) (idx : SearchIndexRepository)
    (log : List SinkCall) (message : Bytes) (event : CDCEvent)
    (hparse : FromDebeziumJSON rt message = .ok event) (htable : event.Table ≠ "posts") :
    (handleMessage rt idx log message).2 = log
      ∧ (event.IsValid = true → (handleMessage rt idx log message).1 = none)
      ∧ (event.IsValid = false
          → (handleMessage rt idx log message).1 = some "invalid CDC event") := by
  unfold handleMessage
  cases hv : event.IsValid <;> simp [hparse, hv, htable]

theorem handleMessage_non_posts_no_call_witness :
    (handleMessage (flatRuntime deleteUser1) acceptingIndex [] deleteUser1.body).2 = []
      ∧ (deleteUser1.event.IsValid = true
          → (handleMessage (flatRuntime deleteUser1) acceptingIndex [] deleteUser1.body).1 = none)
      ∧ (deleteUser1.event.IsValid = false
          → (handleMessage (flatRuntime deleteUser1) acceptingIndex [] deleteUser1.body).1
              = some "invalid CDC event") :=
  handleMessage_non_posts_no_call (flatRuntime deleteUser1) acceptingIndex [] deleteUser1.body
    deleteUser1.event
    rfl (by decide)

/-- C8: table filtering happens before type dispatch. For every valid event
whose table is not posts, whatever its type, handleMessage returns nil and calls
neither UpsertDocument nor DeleteDocument: a delete on another table does not
reach the delete path and an unknown type on another table is not an error. -/
theorem handleMessage_table_filter_first (rt : Runtime) (idx : SearchIndexRepository)
    (log : List SinkCall) (message : Bytes) (event : CDCEvent)
    (hparse : FromDebeziumJSON rt message = .ok event) (hvalid : event.IsValid = true)
    (htable : event.Table ≠ "posts") :
    handleMessage rt idx log message = (none, log) := by
  unfold handleMessage
  simp [hparse, hvalid, htable]

theorem handleMessage_table_filter_first_witness :
    handleMessage (flatRuntime userUnknownType) failingIndex [] userUnknownType.body
      = (none, []) :=
  handleMessage_table_filter_first (flatRuntime userUnknownType)
    failingIndex [] userUnknownType.body userUnknownType.event rfl (by decide) (by decide)

/-- C9: for every valid event on table posts whose type is none of insert,
update, delete, bootstrap-start, bootstrap-insert, bootstrap-complete,
handleMessage returns the error "unknown event type: " followed by the type and
makes no call on the index. -/
theorem handleMessage_unknown_type (rt : Runtime) (idx : SearchIndexRepository)
    (log : List SinkCall) (message : Bytes) (event : CDCEvent)
    (hparse : FromDebeziumJSON rt message = .ok event) (hvalid : event.IsValid = true)
    (htable : event.Table = "posts")
    (hinsert : event.Typ ≠ EventTypeInsert) (hupdate : event.Typ ≠ EventTypeUpdate)
    (hdelete : event.Typ ≠ EventTypeDelete) (hstart : event.Typ ≠ EventTypeBootstrapStart)
    (hbinsert : event.Typ ≠ EventTypeBootstrapInsert)
    (hcomplete : event.Typ ≠ EventTypeBootstrapComplete) :
    handleMessage rt idx log message = (some ("unknown event type: " ++ event.Typ), log) := by
  unfold handleMessage
  simp [hparse, hvalid, htable, hinsert, hupdate, hdelete, hstart, hbinsert, hcomplete]

theorem handleMessage_unknown_type_witness :
    handleMessage (flatRuntime unknownTypeEvent) acceptingIndex [] unknownTypeEvent.body
      = (some ("unknown event type: " ++ "unknown"), []) :=
  handleMessage_unknown_type (flatRuntime unknownTypeEvent) acceptingIndex []
    unknownTypeEvent.body unknownTypeEvent.event rfl (by decide) rfl (by decide) (by decide)
    (by decide) (by decide) (by decide) (by decide)

/-- C10: for every valid event on table posts whose type is bootstrap-start or
bootstrap-complete, handleMessage returns nil and calls neither UpsertDocument
nor DeleteDocument, whatever the data holds. -/
theorem handleMessage_bootstrap_markers (rt : Runtime) (idx : SearchIndexRepository)
    (log : List SinkCall) (message : Bytes) (event : CDCEvent)
    (hparse : FromDebeziumJSON rt message = .ok event) (hvalid : event.IsValid = true)
    (htable : event.Table = "posts")
    (htype : event.Typ = EventTypeBootstrapStart ∨ event.Typ = EventTypeBootstrapComplete) :
    handleMessage rt idx log message = (none, log) := by
  unfold handleMessage
  rcases htype with h | h <;>
    simp [hparse, hvalid, htable, h, EventTypeBootstrapStart, EventTypeBootstrapComplete,
      EventTypeInsert, EventTypeUpdate, EventTypeBootstrapInsert, EventTypeDelete]

theorem handleMessage_bootstrap_markers_witness :
    handleMessage (flatRuntime bootstrapStartEvent) failingIndex [] bootstrapStartEvent.body
      = (none, []) :=
  handleMessage_bootstrap_markers (flatRuntime bootstrapStartEvent) failingIndex []
    bootstrapStartEvent.body bootstrapStartEvent.event rfl (by decide) rfl (Or.inl rfl)

/-! ## Lemmas on normalization and projection -/

theorem timeUnix_zero (v : Int) : timeUnix 0 v = v / 1000000000 := by
  unfold timeUnix
  rcases le_or_lt 0 v with h | h
  · have ht : Int.tdiv v 1000000000 = v / 1000000000 := Int.tdiv_eq_ediv h (by decide)
    simp only [ht]
    split_ifs <;> omega
  · have ht : Int.tdiv v 1000000000 = -((-v) / 1000000000) := by
      have h1 := Int.tdiv_eq_ediv (a := -v) (b := 1000000000) (by omega) (by decide)
      rw [Int.neg_tdiv] at h1
      omega
    simp only [ht]
    split_ifs <;> omega

theorem float64ToInt_whole (f : ℚ) (v : Int) (h : wholeNumber (Value.float64 f) = some v) :
    float64ToInt f = v ∧ (f > 1000000000000 ↔ v > 1000000000000) := by
  simp only [wholeNumber] at h
  split_ifs at h with hc
  obtain ⟨hden, hlo, hhi⟩ := hc
  have hv : f.num = v := by simpa using h
  have hf : ((v : Int) : ℚ) = f := by
    rw [← hv]
    exact Rat.coe_int_num_of_den_eq_one hden
  constructor
  · unfold float64ToInt
    simp only [hden, hv] at hlo hhi ⊢
    simp [hlo, hhi]
  · rw [← hf]
    constructor
    · intro hgt
      exact_mod_cast hgt
    · intro hgt
      exact_mod_cast hgt

theorem get_set_self (m : GoMap) (k : String) (x y : Value) (h : m.get k = some x) :
    (m.set k y).get k = some y := by
  cases m with
  | none => simp [GoMap.get] at h
  | some fs => simp [GoMap.set, GoMap.get, lookup_setField]

theorem get_convertTimestampKey_self (data : GoMap) (k : String) (x : Value) (v : Int)
    (hx : data.get k = some x) (hw : wholeNumber x = some v) :
    (convertTimestampKey data k).get k
      = if v > 1000000000000 then some (Value.int64 (v / 1000000000)) else some x := by
  unfold convertTimestampKey
  cases x with
  | float64 f =>
    obtain ⟨hconv, hgt⟩ := float64ToInt_whole f v hw
    simp only [hx]
    by_cases hv : v > 1000000000000
    · have hf : f > 1000000000000 := hgt.mpr hv
      simp only [hf, hv, if_true]
      rw [get_set_self data k _ _ hx, hconv, timeUnix_zero]
    · have hf : ¬ f > 1000000000000 := fun h => hv (hgt.mp h)
      simp only [hf, hv, if_false]
      exact hx
  | int i =>
    have hi : i = v := by simpa [wholeNumber] using hw
    subst hi
    simp only [hx]
    by_cases hv : i > 1000000000000
    · simp only [hv, if_true]
      rw [get_set_self data k _ _ hx, timeUnix_zero]
    · simp only [hv, if_false]
      exact hx
  | int64 i =>
    have hi : i = v := by simpa [wholeNumber] using hw
    subst hi
    simp only [hx]
    by_cases hv : i > 1000000000000
    · simp only [hv, if_true]
      rw [get_set_self data k _ _ hx, timeUnix_zero]
    · simp only [hv, if_false]
      exact hx
  | nil => simp [wholeNumber] at hw
  | bool b => simp [wholeNumber] at hw
  | string t => simp [wholeNumber] at hw
  | slice xs => simp [wholeNumber] at hw
  | map m => simp [wholeNumber] at hw

theorem get_convertTimestamps_self (data : GoMap) (k : String) (x : Value) (v : Int)
    (hk : k = "created_at" ∨ k = "updated_at")
    (hx : data.get k = some x) (hw : wholeNumber x = some v) :
    (convertTimestamps data).get k
      = if v > 1000000000000 then some (Value.int64 (v / 1000000000)) else some x := by
  unfold convertTimestamps
  rcases hk with hk | hk
  · subst hk
    rw [get_convertTimestampKey _ "updated_at" "created_at" (by decide)]
    exact get_convertTimestampKey_self data "created_at" x v hx hw
  · subst hk
    have hx2 : (convertTimestampKey data "created_at").get "updated_at" = some x := by
      rw [get_convertTimestampKey _ "created_at" "updated_at" (by decide)]
      exact hx
    exact get_convertTimestampKey_self _ "updated_at" x v hx2 hw

/-! ## Normalization of the two envelopes -/

/-- C11: for every payload that decodes as the structured envelope with
source.db or source.table non-empty, FromDebeziumJSON returns an event with
Database = source.db, Table = source.table and TS = ts_ms; op r gives type
bootstrap-insert with Data = after, op c gives insert with Data = after, op u
gives update with Data = after and Old = before, op d gives delete with
Data = before, and any other op gives the op string as type with Data = after. -/
theorem fromDebeziumJSON_structured (rt : Runtime) (data : Bytes) (d : DebeziumEvent)
    (hdecode : rt.unmarshalDebezium data = .ok d)
    (hsource : d.Payload.Source.DB ≠ "" ∨ d.Payload.Source.Table ≠ "") :
    ∃ event : CDCEvent, FromDebeziumJSON rt data = .ok event
      ∧ event.Database = d.Payload.Source.DB
      ∧ event.Table = d.Payload.Source.Table
      ∧ event.TS = d.Payload.TS
      ∧ (d.Payload.Op = "r" →
          event.Typ = EventTypeBootstrapInsert ∧ event.Data = d.Payload.After)
      ∧ (d.Payload.Op = "c" → event.Typ = EventTypeInsert ∧ event.Data = d.Payload.After)
      ∧ (d.Payload.Op = "u" →
          event.Typ = EventTypeUpdate ∧ event.Data = d.Payload.After
            ∧ event.Old = d.Payload.Before)
      ∧ (d.Payload.Op = "d" → event.Typ = EventTypeDelete ∧ event.Data = d.Payload.Before)
      ∧ (d.Payload.Op ≠ "r" → d.Payload.Op ≠ "c" → d.Payload.Op ≠ "u" → d.Payload.Op ≠ "d" →
          event.Typ = d.Payload.Op ∧ event.Data = d.Payload.After) := by
  have hsrc : ¬ (d.Payload.Source.DB = "" ∧ d.Payload.Source.Table = "") := by
    rintro ⟨h1, h2⟩
    rcases hsource with h | h
    · exact h h1
    · exact h h2
  unfold FromDebeziumJSON
  simp only [hdecode, hsrc, if_false]
  by_cases hr : d.Payload.Op = "r"
  · simp [hr]
  · by_cases hc : d.Payload.Op = "c"
    · simp [hc]
    · by_cases hu : d.Payload.Op = "u"
      · simp [hu]
      · by_cases hd : d.Payload.Op = "d"
        · simp [hd]
        · simp [hr, hc, hu, hd]

set_option maxRecDepth 8192 in
theorem fromDebeziumJSON_structured_witness :
    ∃ event : CDCEvent, FromDebeziumJSON (structuredRuntime updatePost1) updatePost1.body
        = .ok event
      ∧ event.Database = updatePost1.envelope.Payload.Source.DB
      ∧ event.Table = updatePost1.envelope.Payload.Source.Table
      ∧ event.TS = updatePost1.envelope.Payload.TS
      ∧ (updatePost1.envelope.Payload.Op = "r" →
          event.Typ = EventTypeBootstrapInsert
            ∧ event.Data = updatePost1.envelope.Payload.After)
      ∧ (updatePost1.envelope.Payload.Op = "c" →
          event.Typ = EventTypeInsert ∧ event.Data = updatePost1.envelope.Payload.After)
      ∧ (updatePost1.envelope.Payload.Op = "u" →
          event.Typ = EventTypeUpdate ∧ event.Data = updatePost1.envelope.Payload.After
            ∧ event.Old = updatePost1.envelope.Payload.Before)
      ∧ (updatePost1.envelope.Payload.Op = "d" →
          event.Typ = EventTypeDelete ∧ event.Data = updatePost1.envelope.Payload.Before)
      ∧ (updatePost1.envelope.Payload.Op ≠ "r" → updatePost1.envelope.Payload.Op ≠ "c" →
          updatePost1.envelope.Payload.Op ≠ "u" → updatePost1.envelope.Payload.Op ≠ "d" →
          event.Typ = updatePost1.envelope.Payload.Op
            ∧ event.Data = updatePost1.envelope.Payload.After) :=
  fromDebeziumJSON_structured (structuredRuntime updatePost1) updatePost1.body
    updatePost1.envelope rfl (Or.inl (by decide))

/-- C12: whenever the structured-envelope decode fails, or succeeds with both
source.db and source.table empty, FromDebeziumJSON returns exactly what FromJSON
returns on the same bytes, the same event or the same error. A flat-envelope
payload has no payload.source, so its structured decode is of the second kind. -/
theorem fromDebeziumJSON_falls_back (rt : Runtime) (data : Bytes)
    (hfallback : (∃ err, rt.unmarshalDebezium data = .error err)
      ∨ (∃ d, rt.unmarshalDebezium data = .ok d
          ∧ d.Payload.Source.DB = "" ∧ d.Payload.Source.Table = "")) :
    FromDebeziumJSON rt data = FromJSON rt data := by
  unfold FromDebeziumJSON
  rcases hfallback with ⟨err, herr⟩ | ⟨d, hd, hdb, htable⟩
  · simp only [herr]
  · simp only [hd, hdb, htable, and_self, if_true]

theorem fromDebeziumJSON_falls_back_witness :
    FromDebeziumJSON (flatRuntime insertPost1) insertPost1.body
      = FromJSON (flatRuntime insertPost1) insertPost1.body :=
  fromDebeziumJSON_falls_back (flatRuntime insertPost1) insertPost1.body
    (Or.inr ⟨zeroDebeziumEvent, rfl, rfl, rfl⟩)

/-- C13: for every payload that is not well-formed JSON, on which json.Unmarshal
fails whatever the target, FromJSON and FromDebeziumJSON return the error of the
flat decode and no event, and handleMessage returns that error without making
any call on the index. -/
theorem handleMessage_malformed_payload (rt : Runtime) (idx : SearchIndexRepository)
    (log : List SinkCall) (data : Bytes) (err : GoError)
    (hstructured : ∃ err', rt.unmarshalDebezium data = .error err')
    (hflat : rt.unmarshalCDCEvent data = .error err) :
    FromJSON rt data = .error err
      ∧ FromDebeziumJSON rt data = .error err
      ∧ handleMessage rt idx log data = (some err, log) := by
  obtain ⟨err', herr'⟩ := hstructured
  have h1 : FromJSON rt data = .error err := by
    unfold FromJSON
    simp only [hflat]
  have h2 : FromDebeziumJSON rt data = .error err := by
    unfold FromDebeziumJSON
    simp only [herr', h1]
  refine ⟨h1, h2, ?_⟩
  unfold handleMessage
  simp only [h2]

theorem handleMessage_malformed_payload_witness :
    FromJSON rejectingRuntime invalidJSON = .error "invalid character"
      ∧ FromDebeziumJSON rejectingRuntime invalidJSON = .error "invalid character"
      ∧ handleMessage rejectingRuntime acceptingIndex [] invalidJSON
          = (some "invalid character", []) :=
  handleMessage_malformed_payload rejectingRuntime acceptingIndex [] invalidJSON
    "invalid character" ⟨"invalid character", rfl⟩ rfl

/-! ## Timestamp normalization -/

/-- C14: for each of created_at and updated_at present in data as an integer
value v, convertTimestamps replaces it with v / 1000000000 when v > 10^12 and
leaves it unchanged when v <= 10^12, 10^12 included. Nothing is assumed about
the other key: the two are treated independently. -/
theorem convertTimestamps_threshold (data : GoMap) (k : String) (x : Value) (v : Int)
    (hk : k = "created_at" ∨ k = "updated_at")
    (hx : data.get k = some x) (hv : wholeNumber x = some v) :
    (v > 1000000000000 →
        (convertTimestamps data).get k = some (Value.int64 (v / 1000000000)))
      ∧ (v ≤ 1000000000000 → (convertTimestamps data).get k = some x) := by
  have h := get_convertTimestamps_self data k x v hk hx hv
  constructor
  · intro hgt
    rw [h, if_pos hgt]
  · intro hle
    rw [h, if_neg (not_lt.mpr hle)]

theorem convertTimestamps_threshold_witness :
    ((1756051794247827 : Int) > 1000000000000 →
        (convertTimestamps mixedTimestampsRow).get "created_at"
          = some (Value.int64 (1756051794247827 / 1000000000)))
      ∧ ((1756057014 : Int) ≤ 1000000000000 →
        (convertTimestamps mixedTimestampsRow).get "updated_at"
          = some (Value.int 1756057014)) :=
  ⟨(convertTimestamps_threshold mixedTimestampsRow "created_at"
      (Value.int 1756051794247827) 1756051794247827 (Or.inl rfl) rfl rfl).1,
   (convertTimestamps_threshold mixedTimestampsRow "updated_at"
      (Value.int 1756057014) 1756057014 (Or.inr rfl) rfl rfl).2⟩

/-- C15, as stated, fails: given created_at = 1756051794247827, as a Go int or
as the float64 of the JSON decoder, convertTimestamps yields 1756051, not
1756051794. -/
theorem convertTimestamps_sample_is_not_seconds :
    ((convertTimestamps mixedTimestampsRow).get "created_at").bind wholeNumber = some 1756051
      ∧ ((convertTimestamps largeTimestampsRow).get "created_at").bind wholeNumber
          = some 1756051
      ∧ ((convertTimestamps mixedTimestampsRow).get "created_at").bind wholeNumber
          ≠ some 1756051794 := by
  refine ⟨?_, ?_, ?_⟩ <;> decide

/-- C15, amended: given created_at = 1756051794247827, convertTimestamps yields
created_at = 1756051, the int64 quotient of the value by 10^9. -/
theorem convertTimestamps_sample (data : GoMap) (x : Value)
    (hx : data.get "created_at" = some x)
    (hv : wholeNumber x = some 1756051794247827) :
    (convertTimestamps data).get "created_at" = some (Value.int64 1756051) := by
  rw [get_convertTimestamps_self data "created_at" x 1756051794247827 (Or.inl rfl) hx hv]
  norm_num

theorem convertTimestamps_sample_witness :
    (convertTimestamps largeTimestampsRow).get "created_at" = some (Value.int64 1756051) :=
  convertTimestamps_sample largeTimestampsRow (Value.float64 1756051794247827) rfl
    (by decide)

/-! ## Document projection -/

theorem newSearchDocument_eq (rt : Runtime) (data : GoMap) (s : String)
    (hid : (data.get "id").bind idDecimal = some s) :
    NewSearchDocumentFromMap rt data = .ok
      { ID := s
        Title := stringField data "title"
        Image := stringField data "image"
        Excerpt := stringField data "excerpt"
        Body := stringField data "body"
        CreatedAt :=
          if timestampField rt data "created_at" = 0 then rt.now 0
          else timestampField rt data "created_at"
        UpdatedAt :=
          if timestampField rt data "updated_at" = 0 then
            rt.now (if timestampField rt data "created_at" = 0 then 1 else 0)
          else timestampField rt data "updated_at" } := by
  unfold NewSearchDocumentFromMap
  cases hv : data.get "id" with
  | none => simp [hv] at hid
  | some v => cases v <;> simp_all [idDecimal]

theorem timestampField_whole (rt : Runtime) (data : GoMap) (k : String) (x : Value) (v : Int)
    (hx : data.get k = some x) (hv : wholeNumber x = some v) :
    timestampField rt data k = v := by
  unfold timestampField
  cases x with
  | float64 f => simp only [hx, (float64ToInt_whole f v hv).1]
  | int i => simpa [hx, wholeNumber] using hv
  | int64 i => simpa [hx, wholeNumber] using hv
  | nil => simp [wholeNumber] at hv
  | bool b => simp [wholeNumber] at hv
  | string t => simp [wholeNumber] at hv
  | slice xs => simp [wholeNumber] at hv
  | map m => simp [wholeNumber] at hv

theorem timestampField_convertTimestamps (rt : Runtime) (data : GoMap) (k : String)
    (x : Value) (v : Int) (hk : k = "created_at" ∨ k = "updated_at")
    (hx : data.get k = some x) (hv : wholeNumber x = some v) :
    timestampField rt (convertTimestamps data) k
      = if v > 1000000000000 then v / 1000000000 else v := by
  have h := get_convertTimestamps_self data k x v hk hx hv
  by_cases hgt : v > 1000000000000
  · rw [if_pos hgt] at h ⊢
    exact timestampField_whole rt _ k _ _ h rfl
  · rw [if_neg hgt] at h ⊢
    exact timestampField_whole rt _ k x v h hv

/-- C16, as stated, fails: for the instant 1756051794.247827 s carried in
microseconds (created_at) and in milliseconds (updated_at), the document of the
upsert path holds 1756051 and 1756, not the 1756051794 whole seconds of the
instant. -/
theorem upsert_timestamps_not_always_seconds :
    wholeNumber (Value.float64 1756051794247827)
        = some (encodeInstant TimeUnit.microseconds 1756051794247827000)
      ∧ wholeNumber (Value.float64 1756051794247)
        = some (encodeInstant TimeUnit.milliseconds 1756051794247827000)
      ∧ encodeInstant TimeUnit.seconds 1756051794247827000 = 1756051794
      ∧ NewSearchDocumentFromMap projectionRuntime (convertTimestamps subSecondRow)
        = .ok { ID := "1", Title := "", Image := "", Excerpt := "", Body := "",
                CreatedAt := 1756051, UpdatedAt := 1756 } := by
  refine ⟨?_, ?_, ?_, rfl⟩ <;> decide

/-- C16, amended: for every instant t, when the row carries t as seconds (a
non-zero value not above 10^12) or as nanoseconds (a value above 10^12), the
created_at and updated_at of the document produced by the upsert path
(convertTimestamps followed by NewSearchDocumentFromMap) equal t in whole unix
seconds. -/
theorem upsert_timestamps_seconds_or_nanoseconds (rt : Runtime) (data : GoMap) (s : String)
    (k : String) (x : Value) (unit : TimeUnit) (n : Int)
    (hid : (data.get "id").bind idDecimal = some s)
    (hk : k = "created_at" ∨ k = "updated_at")
    (hx : data.get k = some x) (hv : wholeNumber x = some (encodeInstant unit n))
    (hunit : (unit = TimeUnit.seconds ∧ encodeInstant unit n ≠ 0
        ∧ encodeInstant unit n ≤ 1000000000000)
      ∨ (unit = TimeUnit.nanoseconds ∧ n > 1000000000000)) :
    ∃ doc : SearchDocument,
      NewSearchDocumentFromMap rt (convertTimestamps data) = .ok doc
        ∧ (k = "created_at" → doc.CreatedAt = encodeInstant TimeUnit.seconds n)
        ∧ (k = "updated_at" → doc.UpdatedAt = encodeInstant TimeUnit.seconds n) := by
  have hid2 : ((convertTimestamps data).get "id").bind idDecimal = some s := by
    rw [get_convertTimestamps _ _ (by decide) (by decide)]
    exact hid
  have hts := timestampField_convertTimestamps rt data k x _ hk hx hv
  have hval : timestampField rt (convertTimestamps data) k = encodeInstant TimeUnit.seconds n
      ∧ encodeInstant TimeUnit.seconds n ≠ 0 := by
    rcases hunit with ⟨hu, hne, hle⟩ | ⟨hu, hgt⟩
    · subst hu
      rw [hts, if_neg (not_lt.mpr hle)]
      exact ⟨rfl, hne⟩
    · subst hu
      have he : encodeInstant TimeUnit.nanoseconds n = n := by
        simp [encodeInstant, TimeUnit.nanos]
      rw [he] at hts
      rw [hts, if_pos hgt]
      refine ⟨rfl, ?_⟩
      simp only [encodeInstant, TimeUnit.nanos]
      omega
  refine ⟨_, newSearchDocument_eq rt _ s hid2, ?_, ?_⟩
  · intro hc
    subst hc
    simp only [hval.1, if_neg hval.2]
  · intro hc
    subst hc
    simp only [hval.1, if_neg hval.2]

theorem upsert_timestamps_seconds_or_nanoseconds_witness :
    ∃ doc : SearchDocument,
      NewSearchDocumentFromMap projectionRuntime (convertTimestamps mixedTimestampsRow) = .ok doc
        ∧ ("updated_at" = "created_at" →
            doc.CreatedAt = encodeInstant TimeUnit.seconds 1756057014999999999)
        ∧ ("updated_at" = "updated_at" →
            doc.UpdatedAt = encodeInstant TimeUnit.seconds 1756057014999999999) :=
  upsert_timestamps_seconds_or_nanoseconds projectionRuntime mixedTimestampsRow "3"
    "updated_at" (Value.int 1756057014) TimeUnit.seconds 1756057014999999999
    (by decide) (Or.inr rfl) rfl (by decide) (Or.inl ⟨rfl, by decide, by decide⟩)

theorem newSearchDocument_error_iff_no_id (rt : Runtime) (data : GoMap) :
    (∃ err, NewSearchDocumentFromMap rt data = .error err)
      ↔ (data.get "id").bind idDecimal = none := by
  constructor
  · rintro ⟨err, herr⟩
    cases hs : (data.get "id").bind idDecimal with
    | none => rfl
    | some s =>
      rw [newSearchDocument_eq rt data s hs] at herr
      cases herr
  · intro h
    exact ⟨ErrPostNotFound, newSearchDocument_of_no_id rt data h⟩

theorem idDecimal_eq_none_iff (v : Value) :
    idDecimal v = none
      ↔ (∀ f, v ≠ Value.float64 f) ∧ (∀ i, v ≠ Value.int i) ∧ (∀ i, v ≠ Value.int64 i) := by
  cases v <;> simp [idDecimal]

/-- C17: NewSearchDocumentFromMap returns an error, and so no document, if and
only if data has no "id" key or the value under "id" is not a float64, int or
int64; two maps with the same "id" entry fail or succeed together, whatever
their other keys hold. -/
theorem newSearchDocument_error_iff (rt : Runtime) (data : GoMap) :
    ((∃ err, NewSearchDocumentFromMap rt data = .error err)
        ↔ (data.get "id" = none
            ∨ ∃ v, data.get "id" = some v ∧ (∀ f, v ≠ Value.float64 f)
                ∧ (∀ i, v ≠ Value.int i) ∧ (∀ i, v ≠ Value.int64 i)))
      ∧ (∀ data' : GoMap, data'.get "id" = data.get "id" →
          ((∃ err, NewSearchDocumentFromMap rt data' = .error err)
            ↔ (∃ err, NewSearchDocumentFromMap rt data = .error err))) := by
  constructor
  · rw [newSearchDocument_error_iff_no_id]
    cases hv : data.get "id" with
    | none => simp
    | some v => simp [idDecimal_eq_none_iff]
  · intro data' h
    rw [newSearchDocument_error_iff_no_id, newSearchDocument_error_iff_no_id, h]

theorem newSearchDocument_error_iff_witness :
    (∃ err, NewSearchDocumentFromMap projectionRuntime textIDRow = .error err) :=
  (newSearchDocument_error_iff projectionRuntime textIDRow).1.mpr
    (Or.inr ⟨Value.string "invalid", rfl, by simp, by simp, by simp⟩)

/-- C18: whenever NewSearchDocumentFromMap succeeds, the document ID is the
decimal string of the integer value of data["id"], and any other data map with
the same "id" value yields the same ID whatever its other fields are. -/
theorem newSearchDocument_id (rt : Runtime) (data : GoMap) (doc : SearchDocument)
    (hok : NewSearchDocumentFromMap rt data = .ok doc) :
    (data.get "id").bind idDecimal = some doc.ID
      ∧ (∀ (rt' : Runtime) (data' : GoMap) (doc' : SearchDocument),
          data'.get "id" = data.get "id" →
          NewSearchDocumentFromMap rt' data' = .ok doc' → doc'.ID = doc.ID) := by
  have key : ∀ (r : Runtime) (m : GoMap) (d : SearchDocument),
      NewSearchDocumentFromMap r m = .ok d → (m.get "id").bind idDecimal = some d.ID := by
    intro r m d hd
    cases hs : (m.get "id").bind idDecimal with
    | none =>
      rw [newSearchDocument_of_no_id r m hs] at hd
      cases hd
    | some s =>
      rw [newSearchDocument_eq r m s hs] at hd
      cases hd
      rfl
  refine ⟨key rt data doc hok, ?_⟩
  intro rt' data' doc' hget hok'
  have h1 := key rt data doc hok
  have h2 := key rt' data' doc' hok'
  rw [hget, h1] at h2
  exact (Option.some.inj h2).symm

theorem newSearchDocument_id_witness :
    (fullRow.get "id").bind idDecimal = some "1"
      ∧ (∀ (rt' : Runtime) (data' : GoMap) (doc' : SearchDocument),
          data'.get "id" = fullRow.get "id" →
          NewSearchDocumentFromMap rt' data' = .ok doc' → doc'.ID = "1") :=
  newSearchDocument_id projectionRuntime fullRow
    { ID := "1", Title := "Test Post", Image := "test.jpg", Excerpt := "Test excerpt",
      Body := "Test body", CreatedAt := 1672531200, UpdatedAt := 1672531200 } rfl

theorem stringField_rule (data : GoMap) (k : String) :
    (∀ t, data.get k = some (Value.string t) → stringField data k = t)
      ∧ ((∀ t, data.get k ≠ some (Value.string t)) → stringField data k = "") := by
  unfold stringField
  constructor
  · intro t ht
    simp only [ht]
  · intro hne
    cases hv : data.get k with
    | none => rfl
    | some v =>
      cases v with
      | string t => exact absurd hv (hne t)
      | nil => rfl
      | bool b => rfl
      | float64 f => rfl
      | int i => rfl
      | int64 i => rfl
      | slice xs => rfl
      | map m => rfl

/-- C19: for every data map with a valid id, NewSearchDocumentFromMap succeeds
and sets each of Title, Image, Excerpt and Body to the value under title, image,
excerpt and body when that value is a string, and to the empty string when the
key is absent or holds a value that is not a string. -/
theorem newSearchDocument_text_fields (rt : Runtime) (data : GoMap) (s : String)
    (hid : (data.get "id").bind idDecimal = some s) :
    ∃ doc : SearchDocument, NewSearchDocumentFromMap rt data = .ok doc
      ∧ ∀ (k : String) (field : String),
          ((k = "title" ∧ field = doc.Title) ∨ (k = "image" ∧ field = doc.Image)
            ∨ (k = "excerpt" ∧ field = doc.Excerpt) ∨ (k = "body" ∧ field = doc.Body)) →
          (∀ t, data.get k = some (Value.string t) → field = t)
            ∧ ((∀ t, data.get k ≠ some (Value.string t)) → field = "") := by
  refine ⟨_, newSearchDocument_eq rt data s hid, ?_⟩
  intro k field hk
  rcases hk with ⟨hk, hf⟩ | ⟨hk, hf⟩ | ⟨hk, hf⟩ | ⟨hk, hf⟩ <;>
    (subst hk; subst hf; exact stringField_rule data _)

theorem newSearchDocument_text_fields_witness :
    ∃ doc : SearchDocument, NewSearchDocumentFromMap projectionRuntime looseRow = .ok doc
      ∧ ∀ (k : String) (field : String),
          ((k = "title" ∧ field = doc.Title) ∨ (k = "image" ∧ field = doc.Image)
            ∨ (k = "excerpt" ∧ field = doc.Excerpt) ∨ (k = "body" ∧ field = doc.Body)) →
          (∀ t, looseRow.get k = some (Value.string t) → field = t)
            ∧ ((∀ t, looseRow.get k ≠ some (Value.string t)) → field = "") :=
  newSearchDocument_text_fields projectionRuntime looseRow "7" (by decide)

theorem timestampField_string (rt : Runtime) (data : GoMap) (k t : String)
    (ht : data.get k = some (Value.string t)) :
    timestampField rt data k = (rt.parseRFC3339 t).getD 0 := by
  unfold timestampField
  simp only [ht]
  cases rt.parseRFC3339 t <;> rfl

theorem timestampField_absent (rt : Runtime) (data : GoMap) (k : String)
    (h : data.get k = none) : timestampField rt data k = 0 := by
  unfold timestampField
  simp only [h]

theorem timestamp_rule (rt : Runtime) (data : GoMap) (k : String) (field : Int)
    (hset : timestampField rt data k ≠ 0 → field = timestampField rt data k)
    (hnow : timestampField rt data k = 0 → ∃ n, n ≤ 1 ∧ field = rt.now n) :
    (∀ x v, data.get k = some x → wholeNumber x = some v → v ≠ 0 → field = v)
      ∧ (∀ t secs, data.get k = some (Value.string t) → rt.parseRFC3339 t = some secs →
          secs ≠ 0 → field = secs)
      ∧ ((data.get k = none ∨ (∃ x, data.get k = some x ∧ wholeNumber x = some 0)
            ∨ (∃ t, data.get k = some (Value.string t)
                ∧ (rt.parseRFC3339 t = none ∨ rt.parseRFC3339 t = some 0))) →
          ∃ n, n ≤ 1 ∧ field = rt.now n) := by
  refine ⟨?_, ?_, ?_⟩
  · intro x v hx hv hne
    have h := timestampField_whole rt data k x v hx hv
    rw [← h]
    exact hset (by rw [h]; exact hne)
  · intro t secs ht hp hne
    have h : timestampField rt data k = secs := by
      rw [timestampField_string rt data k t ht, hp]
      rfl
    rw [← h]
    exact hset (by rw [h]; exact hne)
  · intro h
    apply hnow
    rcases h with h | ⟨x, hx, hv⟩ | ⟨t, ht, hp | hp⟩
    · exact timestampField_absent rt data k h
    · exact timestampField_whole rt data k x 0 hx hv
    · rw [timestampField_string rt data k t ht, hp]
      rfl
    · rw [timestampField_string rt data k t ht, hp]
      rfl

/-- C20: for every data map with a valid id, NewSearchDocumentFromMap succeeds
and sets CreatedAt (resp. UpdatedAt) to the integer value when created_at (resp.
updated_at) is a non-zero integer, to the unix seconds of the parsed instant
when it is an RFC3339 string of a non-zero unix time, and to a reading of the
clock when the key is absent, is zero after conversion, or is a string that is
not RFC3339. -/
theorem newSearchDocument_timestamps (rt : Runtime) (data : GoMap) (s : String)
    (hid : (data.get "id").bind idDecimal = some s) :
    ∃ doc : SearchDocument, NewSearchDocumentFromMap rt data = .ok doc
      ∧ ∀ (k : String) (field : Int),
          ((k = "created_at" ∧ field = doc.CreatedAt)
            ∨ (k = "updated_at" ∧ field = doc.UpdatedAt)) →
          (∀ x v, data.get k = some x → wholeNumber x = some v → v ≠ 0 → field = v)
            ∧ (∀ t secs, data.get k = some (Value.string t) →
                rt.parseRFC3339 t = some secs → secs ≠ 0 → field = secs)
            ∧ ((data.get k = none ∨ (∃ x, data.get k = some x ∧ wholeNumber x = some 0)
                  ∨ (∃ t, data.get k = some (Value.string t)
                      ∧ (rt.parseRFC3339 t = none ∨ rt.parseRFC3339 t = some 0))) →
                ∃ n, n ≤ 1 ∧ field = rt.now n) := by
  refine ⟨_, newSearchDocument_eq rt data s hid, ?_⟩
  intro k field hk
  rcases hk with ⟨hk, hf⟩ | ⟨hk, hf⟩
  · subst hk
    subst hf
    apply timestamp_rule
    · intro hne
      simp only [if_neg hne]
    · intro hz
      exact ⟨0, by decide, by simp only [hz, if_true]⟩
  · subst hk
    subst hf
    apply timestamp_rule
    · intro hne
      simp only [if_neg hne]
    · intro hz
      by_cases hc : timestampField rt data "created_at" = 0
      · exact ⟨1, le_refl 1, by simp only [hz, hc, if_true]⟩
      · exact ⟨0, by decide, by simp only [hz, hc, if_true, if_false]⟩

theorem newSearchDocument_timestamps_witness :
    ∃ doc : SearchDocument, NewSearchDocumentFromMap projectionRuntime fullRow = .ok doc
      ∧ ∀ (k : String) (field : Int),
          ((k = "created_at" ∧ field = doc.CreatedAt)
            ∨ (k = "updated_at" ∧ field = doc.UpdatedAt)) →
          (∀ x v, fullRow.get k = some x → wholeNumber x = some v → v ≠ 0 → field = v)
            ∧ (∀ t secs, fullRow.get k = some (Value.string t) →
                projectionRuntime.parseRFC3339 t = some secs → secs ≠ 0 → field = secs)
            ∧ ((fullRow.get k = none ∨ (∃ x, fullRow.get k = some x ∧ wholeNumber x = some 0)
                  ∨ (∃ t, fullRow.get k = some (Value.string t)
                      ∧ (projectionRuntime.parseRFC3339 t = none
                          ∨ projectionRuntime.parseRFC3339 t = some 0))) →
                ∃ n, n ≤ 1 ∧ field = projectionRuntime.now n) :=
  newSearchDocument_timestamps projectionRuntime fullRow "1" (by decide)

/-! ## Start-up -/

theorem ensurePostsCollection_eq (r : Repositories) (log : List StartupCall) :
    ensurePostsCollection r log = (none, log ++ [StartupCall.createCollection postsSchema]) := by
  unfold ensurePostsCollection
  cases h : r.CreateCollection log postsSchema <;> simp only [h]

/-- C22: either connection failure aborts the start. If the broker Connect
fails with e, StartCDC returns "failed to connect to RabbitMQ: " + e and makes
no other call; if the broker connects and the search engine Connect fails with
e, StartCDC returns "failed to connect to Typesense: " + e, calls neither
CreateCollection nor ConsumeMessages, and closes the broker connection. -/
theorem startCDC_connect_failures (r : Repositories) (queueName : String) (e : GoError) :
    (r.messageQueueConnect [] = some e →
        StartCDC r queueName
          = (some ("failed to connect to RabbitMQ: " ++ e), [StartupCall.messageQueueConnect]))
      ∧ (r.messageQueueConnect [] = none →
          r.searchIndexConnect [StartupCall.messageQueueConnect] = some e →
          StartCDC r queueName
            = (some ("failed to connect to Typesense: " ++ e),
               [StartupCall.messageQueueConnect, StartupCall.searchIndexConnect,
                StartupCall.messageQueueClose])) := by
  constructor
  · intro h
    unfold StartCDC
    simp only [h]
  · intro h1 h2
    unfold StartCDC
    simp only [h1, h2]
    rfl

theorem startCDC_connect_failures_witness :
    StartCDC (mockRepositories (some "connection failed") none none) "test-queue"
        = (some ("failed to connect to RabbitMQ: " ++ "connection failed"),
           [StartupCall.messageQueueConnect])
      ∧ StartCDC (mockRepositories none (some "connection failed") none) "test-queue"
        = (some ("failed to connect to Typesense: " ++ "connection failed"),
           [StartupCall.messageQueueConnect, StartupCall.searchIndexConnect,
            StartupCall.messageQueueClose]) :=
  ⟨(startCDC_connect_failures (mockRepositories (some "connection failed") none none)
      "test-queue" "connection failed").1 rfl,
   (startCDC_connect_failures (mockRepositories none (some "connection failed") none)
      "test-queue" "connection failed").2 rfl rfl⟩

/-- C23: collection creation failure is not fatal. ensurePostsCollection returns
nil whatever CreateCollection returns, and once both connections succeed
StartCDC calls CreateCollection, then ConsumeMessages exactly once with the
given queue name, and returns what ConsumeMessages returns. -/
theorem startCDC_consumes_after_connect (r : Repositories) (queueName : String)
    (hqueue : r.messageQueueConnect [] = none)
    (hsearch : r.searchIndexConnect [StartupCall.messageQueueConnect] = none) :
    (∀ log, (ensurePostsCollection r log).1 = none)
      ∧ StartCDC r queueName
        = (r.ConsumeMessages
            [StartupCall.messageQueueConnect, StartupCall.searchIndexConnect,
             StartupCall.createCollection postsSchema] queueName,
           [StartupCall.messageQueueConnect, StartupCall.searchIndexConnect,
            StartupCall.createCollection postsSchema, StartupCall.consumeMessages queueName,
            StartupCall.searchIndexClose, StartupCall.messageQueueClose]) := by
  constructor
  · intro log
    rw [ensurePostsCollection_eq]
  · unfold StartCDC
    simp only [hqueue, hsearch, ensurePostsCollection_eq]
    rfl

theorem startCDC_consumes_after_connect_witness :
    (∀ log, (ensurePostsCollection
        (mockRepositories none none (some "create collection failed")) log).1 = none)
      ∧ StartCDC (mockRepositories none none (some "create collection failed")) "test-queue"
        = ((mockRepositories none none (some "create collection failed")).ConsumeMessages
            [StartupCall.messageQueueConnect, StartupCall.searchIndexConnect,
             StartupCall.createCollection postsSchema] "test-queue",
           [StartupCall.messageQueueConnect, StartupCall.searchIndexConnect,
            StartupCall.createCollection postsSchema, StartupCall.consumeMessages "test-queue",
            StartupCall.searchIndexClose, StartupCall.messageQueueClose]) :=
  startCDC_consumes_after_connect (mockRepositories none none (some "create collection failed"))
    "test-queue" rfl rfl

/-! ## Projection errors and the frame of the normalization -/

/-- C25, as stated, fails: for a row without id and for a row whose id is a
string, the error of NewSearchDocumentFromMap is "post not found", not
"missing/invalid post ID". -/
theorem newSearchDocument_error_message_differs :
    NewSearchDocumentFromMap projectionRuntime rowWithoutID = .error "post not found"
      ∧ NewSearchDocumentFromMap projectionRuntime textIDRow = .error "post not found"
      ∧ NewSearchDocumentFromMap projectionRuntime rowWithoutID
          ≠ .error "missing/invalid post ID" := by
  refine ⟨rfl, rfl, ?_⟩
  intro h
  have h2 : NewSearchDocumentFromMap projectionRuntime rowWithoutID
      = .error "post not found" := rfl
  rw [h2] at h
  exact absurd (Except.error.inj h) (by decide)

/-- C25, amended: when data has no "id" or an "id" that is not a float64, int or
int64, NewSearchDocumentFromMap fails with the error ErrPostNotFound, whose
message is "post not found". -/
theorem newSearchDocument_error_is_post_not_found (rt : Runtime) (data : GoMap)
    (hid : data.get "id" = none
      ∨ ∃ v, data.get "id" = some v ∧ (∀ f, v ≠ Value.float64 f)
          ∧ (∀ i, v ≠ Value.int i) ∧ (∀ i, v ≠ Value.int64 i)) :
    NewSearchDocumentFromMap rt data = .error "post not found" := by
  apply newSearchDocument_of_no_id
  rcases hid with h | ⟨v, hv, h1, h2, h3⟩
  · simp [h]
  · simp [hv, idDecimal_eq_none_iff, h1, h2, h3]

theorem newSearchDocument_error_is_post_not_found_witness :
    NewSearchDocumentFromMap projectionRuntime textIDRow = .error "post not found" :=
  newSearchDocument_error_is_post_not_found projectionRuntime textIDRow
    (Or.inr ⟨Value.string "invalid", rfl, by simp, by simp, by simp⟩)

theorem convertTimestampKey_cases (data : GoMap) (k : String) :
    convertTimestampKey data k = data
      ∨ ∃ x y, data.get k = some x
          ∧ ((∃ f, x = Value.float64 f) ∨ (∃ i, x = Value.int i) ∨ (∃ i, x = Value.int64 i))
          ∧ convertTimestampKey data k = data.set k y := by
  unfold convertTimestampKey
  cases hx : data.get k with
  | none => exact Or.inl rfl
  | some x =>
    cases x with
    | float64 f =>
      by_cases h : f > 1000000000000
      · exact Or.inr ⟨_, Value.int64 (timeUnix 0 (float64ToInt f)), rfl, Or.inl ⟨f, rfl⟩,
          by simp only [h, if_true]⟩
      · exact Or.inl (by simp only [h, if_false])
    | int i =>
      by_cases h : i > 1000000000000
      · exact Or.inr ⟨_, Value.int64 (timeUnix 0 i), rfl, Or.inr (Or.inl ⟨i, rfl⟩),
          by simp only [h, if_true]⟩
      · exact Or.inl (by simp only [h, if_false])
    | int64 i =>
      by_cases h : i > 1000000000000
      · exact Or.inr ⟨_, Value.int64 (timeUnix 0 i), rfl, Or.inr (Or.inr ⟨i, rfl⟩),
          by simp only [h, if_true]⟩
      · exact Or.inl (by simp only [h, if_false])
    | nil => exact Or.inl rfl
    | bool b => exact Or.inl rfl
    | string t => exact Or.inl rfl
    | slice xs => exact Or.inl rfl
    | map m => exact Or.inl rfl

theorem isSome_get_convertTimestampKey (data : GoMap) (k k' : String) :
    ((convertTimestampKey data k).get k').isSome = (data.get k').isSome := by
  rcases convertTimestampKey_cases data k with h | ⟨x, y, hx, _, h⟩
  · rw [h]
  · rw [h]
    by_cases hk : k' = k
    · subst hk
      rw [get_set_self data k' x y hx, hx]
      rfl
    · rw [get_set data k k' y hk]

theorem convertTimestampKey_of_not_numeric (data : GoMap) (k : String)
    (h : ∀ x, data.get k = some x →
      (∀ f, x ≠ Value.float64 f) ∧ (∀ i, x ≠ Value.int i) ∧ (∀ i, x ≠ Value.int64 i)) :
    convertTimestampKey data k = data := by
  rcases convertTimestampKey_cases data k with hc | ⟨x, y, hx, hnum, _⟩
  · exact hc
  · obtain ⟨h1, h2, h3⟩ := h x hx
    rcases hnum with ⟨f, hf⟩ | ⟨i, hi⟩ | ⟨i, hi⟩
    · exact absurd hf (h1 f)
    · exact absurd hi (h2 i)
    · exact absurd hi (h3 i)

/-- C26: convertTimestamps touches nothing but the two timestamp keys. After the
call the key set is unchanged, every key other than created_at and updated_at
holds its original value, a map containing neither key is left entirely
unchanged, and a created_at or updated_at value that is not a float64, int or
int64 (a string, for example) is left unchanged. -/
theorem convertTimestamps_frame (data : GoMap) :
    (∀ k, ((convertTimestamps data).get k).isSome = (data.get k).isSome)
      ∧ (∀ k, k ≠ "created_at" → k ≠ "updated_at" →
          (convertTimestamps data).get k = data.get k)
      ∧ (data.get "created_at" = none → data.get "updated_at" = none →
          convertTimestamps data = data)
      ∧ (∀ k x, k = "created_at" ∨ k = "updated_at" → data.get k = some x →
          (∀ f, x ≠ Value.float64 f) → (∀ i, x ≠ Value.int i) → (∀ i, x ≠ Value.int64 i) →
          (convertTimestamps data).get k = some x) := by
  refine ⟨?_, ?_, ?_, ?_⟩
  · intro k
    unfold convertTimestamps
    rw [isSome_get_convertTimestampKey, isSome_get_convertTimestampKey]
  · intro k h1 h2
    exact get_convertTimestamps data k h1 h2
  · intro hc hu
    unfold convertTimestamps
    have h1 : convertTimestampKey data "created_at" = data :=
      convertTimestampKey_of_not_numeric data "created_at" (by simp [hc])
    rw [h1]
    exact convertTimestampKey_of_not_numeric data "updated_at" (by simp [hu])
  · intro k x hk hx h1 h2 h3
    have hkey : ∀ (d : GoMap), d.get k = some x → convertTimestampKey d k = d := by
      intro d hd
      apply convertTimestampKey_of_not_numeric
      intro x' hx'
      rw [hd] at hx'
      cases hx'
      exact ⟨h1, h2, h3⟩
    unfold convertTimestamps
    rcases hk with hk | hk
    · subst hk
      rw [get_convertTimestampKey _ "updated_at" "created_at" (by decide), hkey data hx]
      exact hx
    · subst hk
      have hx2 : (convertTimestampKey data "created_at").get "updated_at" = some x := by
        rw [get_convertTimestampKey _ "created_at" "updated_at" (by decide)]
        exact hx
      rw [hkey _ hx2]
      exact hx2

theorem convertTimestamps_frame_witness :
    (convertTimestamps textTimestampsRow).get "created_at"
      = some (Value.string "2023-01-01 00:00:00") :=
  (convertTimestamps_frame textTimestampsRow).2.2.2 "created_at"
    (Value.string "2023-01-01 00:00:00") (Or.inl rfl) rfl (by simp) (by simp) (by simp)

/-- C27: upsert and delete address the same document id for the same row. For
every data map GetID succeeds exactly when NewSearchDocumentFromMap succeeds, on
the row as received and on the row as handleUpsert converts it; and when they
succeed, the id string handleDelete passes to DeleteDocument is the ID of the
document handleUpsert passes to UpsertDocument. -/
theorem delete_and_upsert_same_id (rt : Runtime) (idx : SearchIndexRepository)
    (log : List SinkCall) (event : CDCEvent) :
    (event.GetID.isSome ↔ ∃ doc, NewSearchDocumentFromMap rt event.Data = .ok doc)
      ∧ (event.GetID.isSome
          ↔ ∃ doc, NewSearchDocumentFromMap rt (convertTimestamps event.Data) = .ok doc)
      ∧ (∀ id doc, event.GetID = some id →
          NewSearchDocumentFromMap rt (convertTimestamps event.Data) = .ok doc →
          toString id = doc.ID
            ∧ handleDelete idx log event
              = (idx.DeleteDocument log "posts" doc.ID,
                 log ++ [SinkCall.delete "posts" doc.ID])
            ∧ handleUpsert rt idx log event
              = (idx.UpsertDocument log "posts" doc,
                 log ++ [SinkCall.upsert "posts" doc])) := by
  have hconv : ((convertTimestamps event.Data).get "id").bind idDecimal
      = (event.Data.get "id").bind idDecimal := by
    rw [get_convertTimestamps _ _ (by decide) (by decide)]
  cases hs : (event.Data.get "id").bind idDecimal with
  | none =>
    have hget := getID_of_no_id event hs
    have h1 := newSearchDocument_of_no_id rt event.Data hs
    have h2 := newSearchDocument_of_no_id rt (convertTimestamps event.Data) (hconv.trans hs)
    refine ⟨?_, ?_, ?_⟩
    · simp [hget, h1]
    · simp [hget, h2]
    · intro id doc hid
      rw [hget] at hid
      cases hid
  | some s =>
    have hv : ∃ v, event.Data.get "id" = some v ∧ idDecimal v = some s := by
      cases hv : event.Data.get "id" with
      | none => simp [hv] at hs
      | some v => exact ⟨v, rfl, by simpa [hv] using hs⟩
    obtain ⟨v, hv1, hv2⟩ := hv
    obtain ⟨id0, hget, hstr⟩ := getID_of_id event v s hv1 hv2
    have h1 := newSearchDocument_eq rt event.Data s hs
    have h2 := newSearchDocument_eq rt (convertTimestamps event.Data) s (hconv.trans hs)
    refine ⟨?_, ?_, ?_⟩
    · simp [hget, h1]
    · simp [hget, h2]
    · intro id doc hid hdoc
      rw [hget] at hid
      cases hid
      have hID : doc.ID = s := by
        rw [h2] at hdoc
        cases hdoc
        rfl
      refine ⟨by rw [hstr, hID], ?_, ?_⟩
      · rw [handleDelete_of_id idx log event id0 hget, hstr, hID]
      · exact handleUpsert_of_doc rt idx log event doc hdoc

theorem convertTimestampKey_of_small (data : GoMap) (k : String)
    (h : ∀ x, data.get k = some x →
      ∃ v, (x = Value.int v ∨ x = Value.int64 v) ∧ v ≤ 1000000000000) :
    convertTimestampKey data k = data := by
  unfold convertTimestampKey
  cases hx : data.get k with
  | none => rfl
  | some x =>
    obtain ⟨v, hv, hle⟩ := h x hx
    have hng : ¬ v > 1000000000000 := not_lt.mpr hle
    rcases hv with hv | hv
    · subst hv
      simp only [hng, if_false]
    · subst hv
      simp only [hng, if_false]

/-- C28: convertTimestamps is idempotent on integer timestamps. For every data
map whose created_at and updated_at values are int or int64 (of the 64-bit
range), applying convertTimestamps twice gives the same map as applying it
once; every converted value is at most 9223372036, below the 10^12 threshold. -/
theorem convertTimestamps_idempotent (data : GoMap)
    (hint : ∀ k x, k = "created_at" ∨ k = "updated_at" → data.get k = some x →
      ∃ v, (x = Value.int v ∨ x = Value.int64 v) ∧ minInt64 ≤ v ∧ v ≤ maxInt64) :
    convertTimestamps (convertTimestamps data) = convertTimestamps data
      ∧ (∀ k x v, k = "created_at" ∨ k = "updated_at" → data.get k = some x →
          (x = Value.int v ∨ x = Value.int64 v) → v > 1000000000000 →
          ∃ w, (convertTimestamps data).get k = some (Value.int64 w) ∧ w ≤ 9223372036) := by
  have hconv : ∀ k x v, k = "created_at" ∨ k = "updated_at" → data.get k = some x →
      (x = Value.int v ∨ x = Value.int64 v) →
      (convertTimestamps data).get k
        = if v > 1000000000000 then some (Value.int64 (v / 1000000000)) else some x := by
    intro k x v hk hx hv
    apply get_convertTimestamps_self data k x v hk hx
    rcases hv with hv | hv <;> (subst hv; rfl)
  have hbound : ∀ v : Int, v ≤ maxInt64 → v / 1000000000 ≤ 9223372036 := by
    intro v hv
    unfold maxInt64 at hv
    omega
  have hsmall : ∀ k, k = "created_at" ∨ k = "updated_at" →
      ∀ y, (convertTimestamps data).get k = some y →
      ∃ w, (y = Value.int w ∨ y = Value.int64 w) ∧ w ≤ 1000000000000 := by
    intro k hk y hy
    cases hx : data.get k with
    | none =>
      have hsome : ((convertTimestamps data).get k).isSome = (data.get k).isSome := by
        unfold convertTimestamps
        rw [isSome_get_convertTimestampKey, isSome_get_convertTimestampKey]
      rw [hy, hx] at hsome
      cases hsome
    | some x =>
      obtain ⟨v, hv, _, hhi⟩ := hint k x hk hx
      have hc := hconv k x v hk hx hv
      by_cases hgt : v > 1000000000000
      · rw [if_pos hgt, hy] at hc
        cases hc
        have := hbound v hhi
        exact ⟨v / 1000000000, Or.inr rfl, by omega⟩
      · rw [if_neg hgt, hy] at hc
        cases hc
        exact ⟨v, hv, not_lt.mp hgt⟩
  constructor
  · have h1 : convertTimestampKey (convertTimestamps data) "created_at"
        = convertTimestamps data :=
      convertTimestampKey_of_small _ _ (hsmall "created_at" (Or.inl rfl))
    have h2 : convertTimestampKey (convertTimestamps data) "updated_at"
        = convertTimestamps data :=
      convertTimestampKey_of_small _ _ (hsmall "updated_at" (Or.inr rfl))
    show convertTimestampKey (convertTimestampKey (convertTimestamps data) "created_at")
        "updated_at" = convertTimestamps data
    rw [h1, h2]
  · intro k x v hk hx hv hgt
    obtain ⟨v', hv', _, hhi⟩ := hint k x hk hx
    have hvv : v' = v := by
      rcases hv with h | h <;> rcases hv' with h' | h' <;> subst h <;> cases h' <;> rfl
    subst hvv
    refine ⟨v' / 1000000000, ?_, hbound v' hhi⟩
    rw [hconv k x v' hk hx hv, if_pos hgt]

theorem convertTimestamps_idempotent_witness :
    convertTimestamps (convertTimestamps mixedTimestampsRow)
      = convertTimestamps mixedTimestampsRow :=
  (convertTimestamps_idempotent mixedTimestampsRow (by
    intro k x hk hx
    rcases hk with hk | hk
    · subst hk
      cases hx
      exact ⟨1756051794247827, Or.inl rfl, by decide, by decide⟩
    · subst hk
      cases hx
      exact ⟨1756057014, Or.inl rfl, by decide, by decide⟩)).1

theorem delete_and_upsert_same_id_witness :
    deletePost1.event.GetID.isSome
      ↔ ∃ doc, NewSearchDocumentFromMap projectionRuntime deletePost1.event.Data = .ok doc :=
  (delete_and_upsert_same_id projectionRuntime acceptingIndex [] deletePost1.event).1

/-! ## Structured envelopes that are not acted on -/

theorem handleMessage_of_invalid (rt : Runtime) (idx : SearchIndexRepository)
    (log : List SinkCall) (message : Bytes) (event : CDCEvent)
    (hparse : FromDebeziumJSON rt message = .ok event) (hinvalid : event.IsValid = false) :
    handleMessage rt idx log message = (some "invalid CDC event", log) := by
  unfold handleMessage
  simp [hparse, hinvalid]

theorem isValid_false_of (e : CDCEvent)
    (h : e.Database = "" ∨ e.Table = "" ∨ e.Typ = "" ∨ e.Data = none) :
    e.IsValid = false := by
  cases hv : e.IsValid with
  | false => rfl
  | true =>
    obtain ⟨h1, h2, h3, h4⟩ := (isValid_iff e).mp hv
    rcases h with h | h | h | h
    · exact absurd h h1
    · exact absurd h h2
    · exact absurd h h3
    · exact absurd h h4

/-- C29: a structured-envelope message on table posts whose row image is missing
is rejected. When op is d and payload.before is nil, or op is r, c or u and
payload.after is nil, FromDebeziumJSON returns an event with nil Data and
handleMessage returns "invalid CDC event" without calling DeleteDocument or
UpsertDocument. -/
theorem handleMessage_missing_row_image (rt : Runtime) (idx : SearchIndexRepository)
    (log : List SinkCall) (data : Bytes) (d : DebeziumEvent)
    (hdecode : rt.unmarshalDebezium data = .ok d)
    (htable : d.Payload.Source.Table = "posts")
    (himage : (d.Payload.Op = "d" ∧ d.Payload.Before = none)
      ∨ ((d.Payload.Op = "r" ∨ d.Payload.Op = "c" ∨ d.Payload.Op = "u")
          ∧ d.Payload.After = none)) :
    ∃ event : CDCEvent, FromDebeziumJSON rt data = .ok event
      ∧ event.Data = none
      ∧ handleMessage rt idx log data = (some "invalid CDC event", log) := by
  have hsrc : ¬ (d.Payload.Source.DB = "" ∧ d.Payload.Source.Table = "") := by
    rintro ⟨_, h2⟩
    rw [htable] at h2
    exact absurd h2 (by decide)
  have hparse : ∃ event : CDCEvent, FromDebeziumJSON rt data = .ok event
      ∧ event.Data = none := by
    unfold FromDebeziumJSON
    simp only [hdecode, hsrc, if_false]
    rcases himage with ⟨hop, hb⟩ | ⟨hop | hop | hop, ha⟩
    · simp [hop, hb]
    · simp [hop, ha]
    · simp [hop, ha]
    · simp [hop, ha]
  obtain ⟨event, hev, hdata⟩ := hparse
  exact ⟨event, hev, hdata,
    handleMessage_of_invalid rt idx log data event hev
      (isValid_false_of event (Or.inr (Or.inr (Or.inr hdata))))⟩

set_option maxRecDepth 8192 in
theorem handleMessage_missing_row_image_witness :
    ∃ event : CDCEvent,
      FromDebeziumJSON (structuredRuntime deleteWithoutImage) deleteWithoutImage.body
          = .ok event
        ∧ event.Data = none
        ∧ handleMessage (structuredRuntime deleteWithoutImage) acceptingIndex []
            deleteWithoutImage.body = (some "invalid CDC event", []) :=
  handleMessage_missing_row_image (structuredRuntime deleteWithoutImage) acceptingIndex []
    deleteWithoutImage.body deleteWithoutImage.envelope rfl rfl (Or.inl ⟨rfl, rfl⟩)

theorem fromDebeziumJSON_congr (rt rt' : Runtime) (data : Bytes) (d : DebeziumEvent)
    (h : rt.unmarshalDebezium data = .ok d) (h' : rt'.unmarshalDebezium data = .ok d)
    (hsrc : ¬ (d.Payload.Source.DB = "" ∧ d.Payload.Source.Table = "")) :
    FromDebeziumJSON rt' data = FromDebeziumJSON rt data := by
  unfold FromDebeziumJSON
  simp only [h, h', hsrc, if_false]

theorem fromDebeziumJSON_source_fields (rt : Runtime) (data : Bytes) (d : DebeziumEvent)
    (h : rt.unmarshalDebezium data = .ok d)
    (hsrc : ¬ (d.Payload.Source.DB = "" ∧ d.Payload.Source.Table = "")) :
    ∃ event : CDCEvent, FromDebeziumJSON rt data = .ok event
      ∧ event.Database = d.Payload.Source.DB ∧ event.Table = d.Payload.Source.Table := by
  unfold FromDebeziumJSON
  simp only [h, hsrc, if_false]
  by_cases h1 : d.Payload.Op = "r"
  · simp [h1]
  · by_cases h2 : d.Payload.Op = "c"
    · simp [h2]
    · by_cases h3 : d.Payload.Op = "u"
      · simp [h3]
      · by_cases h4 : d.Payload.Op = "d"
        · simp [h4]
        · simp [h1, h2, h3, h4]

/-- C30: the flat-envelope fallback is taken only when both source fields are
empty. For a payload that decodes as the structured envelope with exactly one of
source.db and source.table non-empty, FromDebeziumJSON returns the event built
from the structured envelope whatever the flat decode of the same payload would
give; its Database or Table is empty and handleMessage rejects it with
"invalid CDC event". -/
theorem handleMessage_half_source (rt : Runtime) (idx : SearchIndexRepository)
    (log : List SinkCall) (data : Bytes) (d : DebeziumEvent)
    (hdecode : rt.unmarshalDebezium data = .ok d)
    (hone : (d.Payload.Source.DB ≠ "" ∧ d.Payload.Source.Table = "")
      ∨ (d.Payload.Source.DB = "" ∧ d.Payload.Source.Table ≠ "")) :
    ∃ event : CDCEvent, FromDebeziumJSON rt data = .ok event
      ∧ event.Database = d.Payload.Source.DB
      ∧ event.Table = d.Payload.Source.Table
      ∧ (event.Database = "" ∨ event.Table = "")
      ∧ (∀ rt' : Runtime, rt'.unmarshalDebezium data = .ok d →
          FromDebeziumJSON rt' data = .ok event)
      ∧ handleMessage rt idx log data = (some "invalid CDC event", log) := by
  have hsrc : ¬ (d.Payload.Source.DB = "" ∧ d.Payload.Source.Table = "") := by
    rintro ⟨h1, h2⟩
    rcases hone with ⟨h, _⟩ | ⟨_, h⟩
    · exact h h1
    · exact h h2
  obtain ⟨event, hev, hdb, htable⟩ := fromDebeziumJSON_source_fields rt data d hdecode hsrc
  have hempty : event.Database = "" ∨ event.Table = "" := by
    rw [hdb, htable]
    rcases hone with ⟨_, h⟩ | ⟨h, _⟩
    · exact Or.inr h
    · exact Or.inl h
  refine ⟨event, hev, hdb, htable, hempty, ?_, ?_⟩
  · intro rt' hdecode'
    rw [fromDebeziumJSON_congr rt rt' data d hdecode hdecode' hsrc, hev]
  · apply handleMessage_of_invalid rt idx log data event hev
    apply isValid_false_of
    rcases hempty with h | h
    · exact Or.inl h
    · exact Or.inr (Or.inl h)

set_option maxRecDepth 8192 in
theorem handleMessage_half_source_witness :
    ∃ event : CDCEvent,
      FromDebeziumJSON (dualRuntime halfSourceBody halfSourceEnvelope halfSourceFlatEvent)
          halfSourceBody = .ok event
        ∧ event.Database = halfSourceEnvelope.Payload.Source.DB
        ∧ event.Table = halfSourceEnvelope.Payload.Source.Table
        ∧ (event.Database = "" ∨ event.Table = "")
        ∧ (∀ rt' : Runtime, rt'.unmarshalDebezium halfSourceBody = .ok halfSourceEnvelope →
            FromDebeziumJSON rt' halfSourceBody = .ok event)
        ∧ handleMessage (dualRuntime halfSourceBody halfSourceEnvelope halfSourceFlatEvent)
            acceptingIndex [] halfSourceBody = (some "invalid CDC event", []) :=
  handleMessage_half_source (dualRuntime halfSourceBody halfSourceEnvelope halfSourceFlatEvent)
    acceptingIndex [] halfSourceBody halfSourceEnvelope rfl (Or.inl ⟨by decide, rfl⟩)

/-! ## Replay -/

theorem applyCall_upsert_twice (st : IndexState) (c : String) (d : SearchDocument) :
    applyCall (applyCall st (SinkCall.upsert c d)) (SinkCall.upsert c d)
      = applyCall st (SinkCall.upsert c d) := by
  funext c' i
  simp only [applyCall]
  split_ifs <;> rfl

theorem applyCalls_replicate_upsert (st : IndexState) (c : String) (d : SearchDocument)
    (n : Nat) :
    applyCalls st (List.replicate (n + 1) (SinkCall.upsert c d))
      = applyCall st (SinkCall.upsert c d) := by
  induction n generalizing st with
  | zero => rfl
  | succ n ih =>
    have h : applyCalls st (List.replicate (n + 1 + 1) (SinkCall.upsert c d))
        = applyCalls (applyCall st (SinkCall.upsert c d))
            (List.replicate (n + 1) (SinkCall.upsert c d)) := rfl
    rw [h, ih, applyCall_upsert_twice]

theorem replay_of_step (rt : Runtime) (idx : SearchIndexRepository) (message : Bytes)
    (call : SinkCall)
    (hstep : ∀ clock log, (handleMessage (withClock rt clock) idx log message).2 = log ++ [call])
    (clocks : List (Nat → Int)) (log : List SinkCall) :
    replay rt idx message clocks log = log ++ List.replicate clocks.length call := by
  induction clocks generalizing log with
  | nil => simp [replay]
  | cons clock rest ih =>
    simp only [replay, hstep clock log, ih, List.length_cons, List.replicate_succ,
      List.append_assoc, List.singleton_append]

set_option maxRecDepth 8192 in
/-- C21, as stated, fails: the row of this insert carries no timestamps, so the
document takes them from the clock of each handling. Handled once at
1700000000 the index holds post 1 with that time; handled again at 1700000060
it holds post 1 with the later time, a different document. -/
theorem replay_not_idempotent_without_timestamps :
    applyCalls emptyIndexState
        (replay (flatRuntime insertPost1) acceptingIndex insertPost1.body
          [fun _ => 1700000000] []) "posts" "1"
      = some post1Document
    ∧ applyCalls emptyIndexState
        (replay (flatRuntime insertPost1) acceptingIndex insertPost1.body
          [fun _ => 1700000000, fun _ => 1700000060] []) "posts" "1"
      = some { post1Document with CreatedAt := 1700000060, UpdatedAt := 1700000060 }
    ∧ applyCalls emptyIndexState
        (replay (flatRuntime insertPost1) acceptingIndex insertPost1.body
          [fun _ => 1700000000, fun _ => 1700000060] []) "posts" "1"
      ≠ applyCalls emptyIndexState
        (replay (flatRuntime insertPost1) acceptingIndex insertPost1.body
          [fun _ => 1700000000] []) "posts" "1" := by
  refine ⟨?_, ?_, ?_⟩ <;> decide

theorem handleMessage_replayed_step (rt : Runtime) (message : Bytes) (event : CDCEvent)
    (s : String)
    (hparse : FromDebeziumJSON rt message = .ok event) (hvalid : event.IsValid = true)
    (htable : event.Table = "posts")
    (htype : event.Typ = EventTypeInsert ∨ event.Typ = EventTypeUpdate
      ∨ event.Typ = EventTypeBootstrapInsert)
    (hid : (event.Data.get "id").bind idDecimal = some s)
    (hcreated : timestampField rt (convertTimestamps event.Data) "created_at" ≠ 0)
    (hupdated : timestampField rt (convertTimestamps event.Data) "updated_at" ≠ 0) :
    ∃ doc : SearchDocument, ∀ clock log,
      (handleMessage (withClock rt clock) acceptingIndex log message).2
        = log ++ [SinkCall.upsert "posts" doc] := by
  have hid2 : ((convertTimestamps event.Data).get "id").bind idDecimal = some s := by
    rw [get_convertTimestamps _ _ (by decide) (by decide)]
    exact hid
  refine ⟨{ ID := s
            Title := stringField (convertTimestamps event.Data) "title"
            Image := stringField (convertTimestamps event.Data) "image"
            Excerpt := stringField (convertTimestamps event.Data) "excerpt"
            Body := stringField (convertTimestamps event.Data) "body"
            CreatedAt := timestampField rt (convertTimestamps event.Data) "created_at"
            UpdatedAt := timestampField rt (convertTimestamps event.Data) "updated_at" }, ?_⟩
  intro clock log
  have hparse2 : FromDebeziumJSON (withClock rt clock) message = .ok event := hparse
  have hc : timestampField (withClock rt clock) (convertTimestamps event.Data) "created_at"
      = timestampField rt (convertTimestamps event.Data) "created_at" := rfl
  have hu : timestampField (withClock rt clock) (convertTimestamps event.Data) "updated_at"
      = timestampField rt (convertTimestamps event.Data) "updated_at" := rfl
  have hdoc := newSearchDocument_eq (withClock rt clock) (convertTimestamps event.Data) s hid2
  rw [hc, hu, if_neg hcreated, if_neg hupdated] at hdoc
  rw [handleMessage_upsert_path (withClock rt clock) acceptingIndex log message event hparse2
      hvalid htable htype,
    handleUpsert_of_doc (withClock rt clock) acceptingIndex log event _ hdoc]

/-- C21, amended: with the index modelled as a map from document id to document
and UpsertDocument as replace-or-insert, handling an identical insert message
N > 1 times leaves the index holding the same final document as handling it
once, provided the created_at and updated_at of the row both convert to a
non-zero time, so that the document does not take them from the clock. -/
theorem replay_idempotent_with_timestamps (rt : Runtime) (message : Bytes) (event : CDCEvent)
    (s : String) (st : IndexState) (clock : Nat → Int) (clocks : List (Nat → Int))
    (hparse : FromDebeziumJSON rt message = .ok event) (hvalid : event.IsValid = true)
    (htable : event.Table = "posts")
    (htype : event.Typ = EventTypeInsert ∨ event.Typ = EventTypeUpdate
      ∨ event.Typ = EventTypeBootstrapInsert)
    (hid : (event.Data.get "id").bind idDecimal = some s)
    (hcreated : timestampField rt (convertTimestamps event.Data) "created_at" ≠ 0)
    (hupdated : timestampField rt (convertTimestamps event.Data) "updated_at" ≠ 0) :
    applyCalls st (replay rt acceptingIndex message (clock :: clocks) [])
      = applyCalls st (replay rt acceptingIndex message [clock] []) := by
  obtain ⟨doc, hstep⟩ := handleMessage_replayed_step rt message event s hparse hvalid htable
    htype hid hcreated hupdated
  rw [replay_of_step rt acceptingIndex message _ hstep (clock :: clocks) [],
    replay_of_step rt acceptingIndex message _ hstep [clock] []]
  simp only [List.nil_append, List.length_cons, List.length_nil]
  rw [applyCalls_replicate_upsert, applyCalls_replicate_upsert]

set_option maxRecDepth 8192 in
theorem replay_idempotent_with_timestamps_witness :
    applyCalls emptyIndexState
        (replay (flatRuntime insertDatedPost1) acceptingIndex insertDatedPost1.body
          [fun _ => 1700000000, fun _ => 1700000060, fun _ => 1700000120] [])
      = applyCalls emptyIndexState
        (replay (flatRuntime insertDatedPost1) acceptingIndex insertDatedPost1.body
          [fun _ => 1700000000] []) :=
  replay_idempotent_with_timestamps (flatRuntime insertDatedPost1) insertDatedPost1.body
    insertDatedPost1.event "1" emptyIndexState (fun _ => 1700000000)
    [fun _ => 1700000060, fun _ => 1700000120] rfl (by decide) rfl (Or.inl rfl) (by decide)
    (by decide) (by decide)

end CDC
